import Mathlib

/-!
# Screen controllers of the consultation-booking app

A shallow embedding of the event handlers of `LoginScreen.js`, `PaymentScreen.js`,
`ProfileScreen.js` and `SettingsScreen.js`.

Every handler is a function of
* the values its closure captured at render time (the screen's `useState` values and the
  slice of the redux store selected with `useSelector`), and
* the outcomes of the external calls it makes (an environment record, one function per
  imported service),
and it returns the sequence of calls it performs, in program order, together with how the
`async` function ended.  State setters (`setLoading(true)`, ...) are part of that sequence;
the screen state after the run is obtained by applying them in order.
-/

namespace RNSample

/-! ## Values shared by the screens -/

/-- A JavaScript error value: the optional `code` and the `message` the handlers inspect. -/
structure JsError where
  code : Option String
  message : String
  deriving DecidableEq, Repr

/-- The value of `new Error(msg)`: no `code`, the given `message`. -/
def JsError.ofMessage (msg : String) : JsError := ⟨none, msg⟩

/-- How an awaited promise settles. `pending` is a promise that never settles. -/
inductive Settled (α : Type) where
  | resolved (value : α)
  | rejected (error : JsError)
  | pending
  deriving Repr

/-- How a run of a handler ends: it returns, it throws (an `async` handler's promise
rejects) or it stays suspended at an `await` whose promise never settles. -/
inductive Completion where
  | returned
  | threw (error : JsError)
  | suspended
  deriving DecidableEq, Repr

/-- Keys of the localized text table `UIText[language]` that the handlers read. -/
inductive TextKey where
  | blankEmail
  | invalidEmail
  | blankPassword
  | invalidPassword
  | noUserMessage
  | emailSentSuccessfully
  | noUserCorrespondingToEmail
  | someThingWentWrong
  | somethingWentWrong
  | incorrectPassword
  | changesApplied
  | imageUploaded
  | selectAvatar
  deriving DecidableEq, Repr

/-- A text handed to `displayMessage` or to a field-error setter. The table `UIText` is not
part of the sources, so its entries are kept symbolic. -/
inductive Text where
  /-- The entry `UIText[language].key`. -/
  | ui (language : String) (key : TextKey)
  /-- The result of `UIText[language].checkInternetConnectionAndTry(action)`. -/
  | checkInternetConnectionAndTry (language : String) (action : Option String)
  /-- A string that does not come from the table (`''`, `error.message`). -/
  | raw (text : String)
  deriving DecidableEq, Repr

/-- A document's payload, as returned by `userDoc.data()`. -/
abbrev UserData := List (String × String)

/-- The fields of a partial update handed to `updateUserData`. -/
inductive UserFields where
  | name (value : String)
  | email (value : String)
  | photoUrl (value : String)
  deriving DecidableEq, Repr

/-- The navigation parameters of the payment screen (`route.params`). -/
structure RouteParams where
  selectedConsultant : String
  appointmentUTCDateTime : String
  deriving DecidableEq, Repr

/-- The redux actions the screens dispatch. -/
inductive Action where
  | setUserData (data : UserData)
  | setUid (uid : String)
  | setLoggedIn (value : Bool)
  | setKeepLoggedIn (value : Bool)
  | setIsAdmin (value : Bool)
  | setStripeCustomerId (id : Option String)
  | fetchAppointments (userType : String) (uid : String)
  | setName (name : String)
  | setEmail (email : String)
  | setPhotoUrl (url : String)
  | setLanguage (language : String)
  | setLanguageIsSetManually (value : Bool)
  deriving DecidableEq, Repr

/-- Calls a handler makes on something outside the screen component. -/
inductive Call where
  | keyboardDismiss
  | displayMessage (text : Text)
  | reportProblem (error : JsError)
  | dispatch (action : Action)
  | navigate (screen : String)
  | goBack
  | registerForPushNotifications (uid : String)
  | loginUserIn (email password : String)
  | sendResetPasswordEmail (email : String)
  | updateUserEmail (email : String)
  | fetchUserData (uid : String)
  | updateUserPrivateData (uid language : String)
  | checkAdministration (email : String)
  | updateUserData (uid : String) (fields : UserFields)
  | deleteUserDoc (uid : String)
  | paymentRequestWithCardForm
  | createAndSaveStripeCustomer (tokenId email : String)
  | schedule (params : RouteParams)
  | logout
  | getIosCameraAndPhotoLibraryPermissions
  | showImagePicker (title : Text)
  | convertPhotoToBlob (uri : String)
  | buildStorageRef (collection uid : String)
  | uploadPhotoAndRetrieveUrl (photoRef photoBlob : String)
  deriving DecidableEq, Repr

/-- One step of a handler: a call of one of the screen's own state setters, or an
external call. -/
inductive Event (σ : Type) where
  | set (update : σ)
  | ext (call : Call)
  deriving DecidableEq, Repr

/-- The result of running a handler. -/
structure Run (σ : Type) where
  trace : List (Event σ)
  completion : Completion
  deriving Repr

/-- The external calls of a trace, in order. -/
def calls {σ : Type} : List (Event σ) → List Call
  | [] => []
  | .set _ :: rest => calls rest
  | .ext c :: rest => c :: calls rest

/-- The setter calls of a trace, in order. -/
def sets {σ : Type} : List (Event σ) → List σ
  | [] => []
  | .set u :: rest => u :: sets rest
  | .ext _ :: rest => sets rest

/-- The slice of the redux store the screens select with `useSelector`. -/
structure Store where
  language : String
  deviceLanguage : String
  isConnectedToInternet : Bool
  loggedIn : Bool
  uid : String
  name : String
  email : String
  photoUrl : String
  stripeCustomerId : Option String
  deriving DecidableEq, Repr

/-- The `user` of a resolved `loginUserIn`. -/
structure User where
  uid : String
  deriving DecidableEq, Repr

/-- The value `loginUserIn` resolves with; `user` may be missing. -/
structure Credential where
  user : Option User
  deriving DecidableEq, Repr

/-- The two patterns of `Constants/RegexPatterns`, as the predicates `pattern.test`. -/
structure RegexPatterns where
  email : String → Bool
  password : String → Bool

/-! ### Classification of calls -/

/-- Calls of the imported networking modules, of the Stripe card form and of the
appointment scheduler. -/
def Call.isService : Call → Bool
  | .loginUserIn _ _ => true
  | .sendResetPasswordEmail _ => true
  | .updateUserEmail _ => true
  | .fetchUserData _ => true
  | .updateUserPrivateData _ _ => true
  | .checkAdministration _ => true
  | .updateUserData _ _ => true
  | .deleteUserDoc _ => true
  | .paymentRequestWithCardForm => true
  | .createAndSaveStripeCustomer _ _ => true
  | .schedule _ => true
  | .uploadPhotoAndRetrieveUrl _ _ => true
  | _ => false

def Call.isDispatch : Call → Bool
  | .dispatch _ => true
  | _ => false

def Call.isNavigation : Call → Bool
  | .navigate _ => true
  | .goBack => true
  | _ => false

def Call.isDisplayMessage : Call → Bool
  | .displayMessage _ => true
  | _ => false

def Call.isLoginUserIn : Call → Bool
  | .loginUserIn _ _ => true
  | _ => false

def Call.isPushRegistration : Call → Bool
  | .registerForPushNotifications _ => true
  | _ => false

def Call.isFetchUserData : Call → Bool
  | .fetchUserData _ => true
  | _ => false

def Call.isUpdateUserPrivateData : Call → Bool
  | .updateUserPrivateData _ _ => true
  | _ => false

def Call.isCheckAdministration : Call → Bool
  | .checkAdministration _ => true
  | _ => false

def Call.isReportProblem : Call → Bool
  | .reportProblem _ => true
  | _ => false

def Call.isCardForm : Call → Bool
  | .paymentRequestWithCardForm => true
  | _ => false

def Call.isCreateAndSaveStripeCustomer : Call → Bool
  | .createAndSaveStripeCustomer _ _ => true
  | _ => false

def Call.isSchedule : Call → Bool
  | .schedule _ => true
  | _ => false

def Call.isSetStripeCustomerId : Call → Bool
  | .dispatch (.setStripeCustomerId _) => true
  | _ => false

def Call.isUpdateUserData : Call → Bool
  | .updateUserData _ _ => true
  | _ => false

def Call.isUpdateUserEmail : Call → Bool
  | .updateUserEmail _ => true
  | _ => false

/-- The actions a trace dispatches to the store, in order. -/
def dispatched {σ : Type} : List (Event σ) → List Action
  | [] => []
  | .ext (.dispatch a) :: rest => a :: dispatched rest
  | _ :: rest => dispatched rest

/-- The texts a trace hands to `displayMessage`, in order. -/
def displayed {σ : Type} : List (Event σ) → List Text
  | [] => []
  | .ext (.displayMessage t) :: rest => t :: displayed rest
  | _ :: rest => displayed rest

/-! ## LoginScreen.js -/

namespace LoginScreen

/-- The `useState` values of the login screen. A field error is `none` while it still holds
its initial value `false`. -/
structure State where
  keepUserLoggedIn : Bool
  email : String
  password : String
  emailErrorMessage : Option Text
  passwordErrorMessage : Option Text
  showResetPasswordPopup : Bool
  loading : Bool
  deriving DecidableEq, Repr

/-- The state of a freshly mounted login screen. -/
def State.initial : State :=
  { keepUserLoggedIn := true, email := "", password := "", emailErrorMessage := none,
    passwordErrorMessage := none, showResetPasswordPopup := false, loading := false }

/-- Calls of the state setters of the login screen. -/
inductive Setter where
  | setKeepUserLoggedIn (value : Bool)
  | setEmail (value : String)
  | setPassword (value : String)
  | setEmailErrorMessage (value : Text)
  | setPasswordErrorMessage (value : Text)
  | setShowResetPasswordPopup (value : Bool)
  | setLoading (value : Bool)
  deriving DecidableEq, Repr

def Setter.isSetLoading : Setter → Bool
  | .setLoading _ => true
  | _ => false

def Setter.isSetPasswordErrorMessage : Setter → Bool
  | .setPasswordErrorMessage _ => true
  | _ => false

/-- The effect of one setter call on the state. -/
def State.apply (s : State) : Setter → State
  | .setKeepUserLoggedIn v => { s with keepUserLoggedIn := v }
  | .setEmail v => { s with email := v }
  | .setPassword v => { s with password := v }
  | .setEmailErrorMessage v => { s with emailErrorMessage := some v }
  | .setPasswordErrorMessage v => { s with passwordErrorMessage := some v }
  | .setShowResetPasswordPopup v => { s with showResetPasswordPopup := v }
  | .setLoading v => { s with loading := v }

/-- The state after the setter calls of a trace have been applied in order. -/
def State.after (s : State) (trace : List (Event Setter)) : State :=
  (sets trace).foldl State.apply s

/-- The document snapshot `fetchUserData` resolves with. -/
structure UserDoc where
  «exists» : Bool
  data : UserData
  deriving DecidableEq, Repr

/-- The query snapshot `checkAdministration` resolves with. -/
structure CollectionSnap where
  empty : Bool
  deriving DecidableEq, Repr

/-- Outcomes of the external calls of the login screen. -/
structure Env where
  patterns : RegexPatterns
  loginUserIn : String → String → Settled Credential
  fetchUserData : String → Settled UserDoc
  checkAdministration : String → Settled CollectionSnap
  sendResetPasswordEmail : String → Settled Unit
  /-- The test `err.message.includes('no user record')`. -/
  mentionsNoUserRecord : String → Bool

/-- `displayNoConnectionMessage(action)`. -/
def displayNoConnectionMessage (store : Store) (action : Option String) : List (Event Setter) :=
  [.ext (.displayMessage (.checkInternetConnectionAndTry store.language action))]

/-- `validateEmail()`: the setter call it makes and whether it returned `true`
(it returns `undefined`, here `false`, on the two failing branches). -/
def validateEmail (env : Env) (store : Store) (s : State) : List (Event Setter) × Bool :=
  if s.email = "" then
    ([.set (.setEmailErrorMessage (.ui store.language .blankEmail))], false)
  else if !env.patterns.email s.email then
    ([.set (.setEmailErrorMessage (.ui store.language .invalidEmail))], false)
  else
    ([.set (.setEmailErrorMessage (.raw ""))], true)

/-- `validatePassword()`, of the same shape as `validateEmail`. -/
def validatePassword (env : Env) (store : Store) (s : State) : List (Event Setter) × Bool :=
  if s.password = "" then
    ([.set (.setPasswordErrorMessage (.ui store.language .blankPassword))], false)
  else if !env.patterns.password s.password then
    ([.set (.setPasswordErrorMessage (.ui store.language .invalidPassword))], false)
  else
    ([.set (.setPasswordErrorMessage (.raw ""))], true)

/-- `handleLoginError(error)`: the switch on `error.code`. -/
def handleLoginError (store : Store) (error : JsError) : List (Event Setter) :=
  if error.code = some "auth/network-request-failed" then
    displayNoConnectionMessage store none
  else if error.code = some "auth/user-not-found" then
    [.ext (.displayMessage (.ui store.language .noUserMessage))]
  else
    [.ext (.reportProblem error), .ext (.displayMessage (.raw error.message))]

/-- `dispatchDataToStore(userDoc, uid)`. -/
def dispatchDataToStore (s : State) (userDoc : UserDoc) (uid : String) : List (Event Setter) :=
  [.ext (.dispatch (.setUserData userDoc.data)),
   .ext (.dispatch (.setUid uid)),
   .ext (.dispatch (.setLoggedIn true)),
   .ext (.dispatch (.setKeepLoggedIn s.keepUserLoggedIn))]

/-- The `then` callback attached to `checkAdministration(email)`: it runs once the promise
resolves, after the handler body that attached it. -/
def checkAdministrationCallback (outcome : Settled CollectionSnap) : List (Event Setter) :=
  match outcome with
  | .resolved collectionSnap =>
    if !collectionSnap.empty then [.ext (.dispatch (.setIsAdmin true))] else []
  | _ => []

/-- The part of `onPressLogin` after a `user` was obtained. -/
def onPressLoginWithUser (env : Env) (store : Store) (s : State) (user : User) : Run Setter :=
  let uid := user.uid
  match env.fetchUserData uid with
  | .pending => ⟨[.ext (.fetchUserData uid)], .suspended⟩
  | .rejected error =>
    ⟨[.ext (.fetchUserData uid),
      .ext (.reportProblem error),
      .ext (.displayMessage (.ui store.language .noUserMessage)),
      .set (.setLoading false)], .returned⟩
  | .resolved userDoc =>
    if userDoc.exists then
      ⟨[.ext (.fetchUserData uid),
        .ext (.checkAdministration s.email),
        .ext (.updateUserPrivateData uid store.language)]
        ++ dispatchDataToStore s userDoc uid
        ++ [.set (.setLoading false),
            .ext (.registerForPushNotifications uid),
            .ext (.navigate "Main")]
        ++ checkAdministrationCallback (env.checkAdministration s.email), .returned⟩
    else
      ⟨[.ext (.fetchUserData uid)], .returned⟩

/-- The `catch` block around the sign-in step of `onPressLogin`. -/
def onLoginFailure (store : Store) (error : JsError) : List (Event Setter) :=
  handleLoginError store error ++ [.set (.setLoading false)]

/-- `onPressLogin()`. -/
def onPressLogin (env : Env) (store : Store) (s : State) : Run Setter :=
  let emailIsValid := validateEmail env store s
  let passwordIsValid := validatePassword env store s
  let validated := [.ext .keyboardDismiss] ++ emailIsValid.1 ++ passwordIsValid.1
  if !emailIsValid.2 || !passwordIsValid.2 then ⟨validated, .returned⟩
  else if !store.isConnectedToInternet then
    ⟨validated ++ displayNoConnectionMessage store none, .returned⟩
  else
    let started := validated ++ [.set (.setLoading true), .ext (.loginUserIn s.email s.password)]
    match env.loginUserIn s.email s.password with
    | .pending => ⟨started, .suspended⟩
    | .rejected error => ⟨started ++ onLoginFailure store error, .returned⟩
    | .resolved credential =>
      match credential.user with
      | none =>
        ⟨started ++ onLoginFailure store (JsError.ofMessage "User is undefined"), .returned⟩
      | some user =>
        let rest := onPressLoginWithUser env store s user
        ⟨started ++ rest.trace, rest.completion⟩

/-- `onPressSendResetPasswordEmail(receiverEmail)`. -/
def onPressSendResetPasswordEmail (env : Env) (store : Store) (receiverEmail : String) :
    Run Setter :=
  let started := [.set (.setShowResetPasswordPopup false),
                  .ext (.sendResetPasswordEmail receiverEmail)]
  match env.sendResetPasswordEmail receiverEmail with
  | .pending => ⟨started, .suspended⟩
  | .resolved _ =>
    ⟨started ++ [.ext (.displayMessage (.ui store.language .emailSentSuccessfully))], .returned⟩
  | .rejected err =>
    if env.mentionsNoUserRecord err.message then
      ⟨started ++ [.ext (.displayMessage (.ui store.language .noUserCorrespondingToEmail))],
        .returned⟩
    else
      ⟨started ++ [.ext (.displayMessage (.ui store.language .someThingWentWrong))], .returned⟩

end LoginScreen

/-! ## PaymentScreen.js -/

namespace PaymentScreen

/-- The `useState` values of the payment screen. -/
structure State where
  showSuccessModal : Bool
  userAgrees : Bool
  showTermsAndPrivacyModal : Bool
  deriving DecidableEq, Repr

/-- The state of a freshly mounted payment screen. -/
def State.initial : State :=
  { showSuccessModal := false, userAgrees := true, showTermsAndPrivacyModal := false }

/-- Calls of the state setters of the payment screen. -/
inductive Setter where
  | setShowSuccessModal (value : Bool)
  | setUserAgrees (value : Bool)
  | setShowTermsAndPrivacyModal (value : Bool)
  deriving DecidableEq, Repr

/-- The effect of one setter call on the state. -/
def State.apply (s : State) : Setter → State
  | .setShowSuccessModal v => { s with showSuccessModal := v }
  | .setUserAgrees v => { s with userAgrees := v }
  | .setShowTermsAndPrivacyModal v => { s with showTermsAndPrivacyModal := v }

/-- The state after the setter calls of a trace have been applied in order. -/
def State.after (s : State) (trace : List (Event Setter)) : State :=
  (sets trace).foldl State.apply s

/-- The card token the Stripe form resolves with. -/
structure Token where
  tokenId : String
  deriving DecidableEq, Repr

/-- The response of the `createAndSaveStripeCustomer` endpoint. -/
structure Response where
  data : Option String
  deriving DecidableEq, Repr

/-- Outcomes of the external calls of the payment screen, the build flag `__DEV__` and the
constant `USER` of `Constants/UserTypes`. -/
structure Env where
  dev : Bool
  userType : String
  paymentRequestWithCardForm : Settled (Option Token)
  createAndSaveStripeCustomer : String → String → Settled Response
  schedule : RouteParams → Settled Unit

/-- JavaScript truthiness of `stripeCustomerId`: a non-empty string. -/
def hasStripeCustomerId (store : Store) : Bool :=
  match store.stripeCustomerId with
  | some id => id != ""
  | none => false

/-- `onPaymentComplete()`. -/
def onPaymentComplete (env : Env) (store : Store) (params : RouteParams) : Run Setter :=
  match env.schedule params with
  | .pending => ⟨[.ext (.schedule params)], .suspended⟩
  | .rejected error => ⟨[.ext (.schedule params)], .threw error⟩
  | .resolved _ =>
    ⟨[.ext (.schedule params),
      .ext (.dispatch (.fetchAppointments env.userType store.uid)),
      .set (.setShowSuccessModal true)], .returned⟩

/-- `onPayBtnLongPress()`. -/
def onPayBtnLongPress (env : Env) (store : Store) (params : RouteParams) : Run Setter :=
  if !env.dev then ⟨[], .returned⟩
  else ⟨(onPaymentComplete env store params).trace, .returned⟩

/-- `showCardForm()`: the token it resolves with (`none` inside for `null`), or `none`
while the card form never settles. A rejection of the form becomes `null`. -/
def showCardForm (env : Env) : Option (Option Token) :=
  match env.paymentRequestWithCardForm with
  | .resolved token => some token
  | .rejected _ => some none
  | .pending => none

/-- `completePaymentsWithStripe()`. The calls of `onPaymentComplete`, which is started but
not awaited, follow the caller's own. -/
def completePaymentsWithStripe (env : Env) (store : Store) (params : RouteParams) :
    Run Setter :=
  if !store.isConnectedToInternet then
    ⟨[.ext (.displayMessage (.checkInternetConnectionAndTry store.language none))], .returned⟩
  else if hasStripeCustomerId store then
    ⟨(onPaymentComplete env store params).trace, .returned⟩
  else
    let form : List (Event Setter) := [.ext .paymentRequestWithCardForm]
    match showCardForm env with
    | none => ⟨form, .suspended⟩
    | some none => ⟨form, .returned⟩
    | some (some token) =>
      let started := form ++ [.ext (.createAndSaveStripeCustomer token.tokenId store.email)]
      match env.createAndSaveStripeCustomer token.tokenId store.email with
      | .pending => ⟨started, .suspended⟩
      | .rejected error =>
        ⟨started ++ [.ext (.reportProblem error),
                     .ext (.displayMessage (.ui store.language .somethingWentWrong))], .returned⟩
      | .resolved response =>
        ⟨started ++ [.ext (.dispatch (.setStripeCustomerId response.data))]
           ++ (onPaymentComplete env store params).trace, .returned⟩

/-- `onSuccessModalDismiss()`. -/
def onSuccessModalDismiss : Run Setter :=
  ⟨[.set (.setShowSuccessModal false), .ext .goBack], .returned⟩

end PaymentScreen

/-! ## ProfileScreen.js -/

namespace ProfileScreen

/-- The `useState` values of the profile screen. -/
structure State where
  uploadingPicture : Bool
  viewBottomOffset : Nat
  showReEnterPasswordPopup : Bool
  passwordErrorMessage : Text
  changeEmailLoading : Bool
  unAppliedEmail : String
  deriving DecidableEq, Repr

/-- The state of a freshly mounted profile screen. -/
def State.initial : State :=
  { uploadingPicture := false, viewBottomOffset := 0, showReEnterPasswordPopup := false,
    passwordErrorMessage := .raw "", changeEmailLoading := false, unAppliedEmail := "" }

/-- Calls of the state setters of the profile screen. -/
inductive Setter where
  | setUploadingPicture (value : Bool)
  | setViewBottomOffset (value : Nat)
  | setShowReEnterPasswordPopup (value : Bool)
  | setPasswordErrorMessage (value : Text)
  | setChangeEmailLoading (value : Bool)
  | setUnAppliedEmail (value : String)
  deriving DecidableEq, Repr

def Setter.isSetUnAppliedEmail : Setter → Bool
  | .setUnAppliedEmail _ => true
  | _ => false

/-- The effect of one setter call on the state. -/
def State.apply (s : State) : Setter → State
  | .setUploadingPicture v => { s with uploadingPicture := v }
  | .setViewBottomOffset v => { s with viewBottomOffset := v }
  | .setShowReEnterPasswordPopup v => { s with showReEnterPasswordPopup := v }
  | .setPasswordErrorMessage v => { s with passwordErrorMessage := v }
  | .setChangeEmailLoading v => { s with changeEmailLoading := v }
  | .setUnAppliedEmail v => { s with unAppliedEmail := v }

/-- The state after the setter calls of a trace have been applied in order. -/
def State.after (s : State) (trace : List (Event Setter)) : State :=
  (sets trace).foldl State.apply s

/-- The permissions `getIosCameraAndPhotoLibraryPermissions` resolves with. -/
structure Permissions where
  cameraPermissionGranted : Bool
  photoLibraryPermissionGranted : Bool
  deriving DecidableEq, Repr

/-- The response the image picker hands to its callback; `error` is `none` when absent. -/
structure PickerResponse where
  didCancel : Bool
  error : Option String
  uri : String
  deriving DecidableEq, Repr

/-- Outcomes of the external calls of the profile screen. -/
structure Env where
  patterns : RegexPatterns
  loginUserIn : String → String → Settled Credential
  getIosCameraAndPhotoLibraryPermissions : Settled Permissions
  convertPhotoToBlob : String → Settled String
  buildStorageRef : String → String → String
  uploadPhotoAndRetrieveUrl : String → String → Settled String

/-- JavaScript truthiness of `response.error`: present and not the empty string. -/
def PickerResponse.hasError (response : PickerResponse) : Bool :=
  match response.error with
  | some e => e != ""
  | none => false

/-- The callback `showImagePicker` hands to `ImagePicker.showImagePicker`. -/
def onImagePicked (env : Env) (store : Store) (response : PickerResponse) : Run Setter :=
  if response.didCancel || response.hasError then ⟨[], .returned⟩
  else if !store.isConnectedToInternet then
    ⟨[.ext (.displayMessage (.checkInternetConnectionAndTry store.language none))], .returned⟩
  else
    let started : List (Event Setter) :=
      [.set (.setUploadingPicture true), .ext (.convertPhotoToBlob response.uri)]
    match env.convertPhotoToBlob response.uri with
    | .pending => ⟨started, .suspended⟩
    | .rejected error => ⟨started, .threw error⟩
    | .resolved photoBlob =>
      let photoRef := env.buildStorageRef "users" store.uid
      let uploading := started ++
        [.ext (.buildStorageRef "users" store.uid),
         .ext (.uploadPhotoAndRetrieveUrl photoRef photoBlob)]
      match env.uploadPhotoAndRetrieveUrl photoRef photoBlob with
      | .pending => ⟨uploading, .suspended⟩
      | .rejected error => ⟨uploading, .threw error⟩
      | .resolved photoUrl =>
        ⟨uploading ++
          [.set (.setUploadingPicture false),
           .ext (.displayMessage (.ui store.language .imageUploaded)),
           .ext (.dispatch (.setPhotoUrl photoUrl)),
           .ext (.updateUserData store.uid (.photoUrl photoUrl))], .returned⟩

/-- `showImagePicker()`, up to the point where the picker is opened. -/
def showImagePicker (env : Env) (store : Store) : Run Setter :=
  match env.getIosCameraAndPhotoLibraryPermissions with
  | .pending => ⟨[.ext .getIosCameraAndPhotoLibraryPermissions], .suspended⟩
  | .rejected error => ⟨[.ext .getIosCameraAndPhotoLibraryPermissions], .threw error⟩
  | .resolved permissions =>
    if !permissions.cameraPermissionGranted && !permissions.photoLibraryPermissionGranted then
      ⟨[.ext .getIosCameraAndPhotoLibraryPermissions], .returned⟩
    else
      ⟨[.ext .getIosCameraAndPhotoLibraryPermissions,
        .ext (.showImagePicker (.ui store.language .selectAvatar))], .returned⟩

/-- `applyChange({type, value})`. -/
def applyChange (env : Env) (store : Store) (type value : String) : Run Setter :=
  if !store.isConnectedToInternet then
    ⟨[.ext (.displayMessage (.checkInternetConnectionAndTry store.language none))], .returned⟩
  else if type = "fullName" then
    ⟨[.ext (.dispatch (.setName value)),
      .ext (.updateUserData store.uid (.name value)),
      .ext (.displayMessage (.ui store.language .changesApplied))], .returned⟩
  else if type = "email" then
    if !env.patterns.email value then
      ⟨[.ext (.displayMessage (.ui store.language .invalidEmail))], .returned⟩
    else
      ⟨[.set (.setUnAppliedEmail value),
        .set (.setPasswordErrorMessage (.raw "")),
        .ext .keyboardDismiss,
        .set (.setShowReEnterPasswordPopup true)], .returned⟩
  else ⟨[], .returned⟩

/-- The `catch` block of `changeEmail`. -/
def onReauthenticationFailure (store : Store) (s : State) : List (Event Setter) :=
  [if s.showReEnterPasswordPopup then
     .set (.setPasswordErrorMessage (.ui store.language .incorrectPassword))
   else
     .ext (.displayMessage (.ui store.language .incorrectPassword)),
   .set (.setChangeEmailLoading false)]

/-- `changeEmail(password)`. -/
def changeEmail (env : Env) (store : Store) (s : State) (password : String) : Run Setter :=
  if password = "" then
    ⟨[.set (.setPasswordErrorMessage (.ui store.language .blankPassword))], .returned⟩
  else
    let started : List (Event Setter) :=
      [.set (.setPasswordErrorMessage (.raw "")),
       .set (.setChangeEmailLoading true),
       .ext (.loginUserIn store.email password)]
    match env.loginUserIn store.email password with
    | .pending => ⟨started, .suspended⟩
    | .rejected _ => ⟨started ++ onReauthenticationFailure store s, .returned⟩
    | .resolved credential =>
      match credential.user with
      | none => ⟨started ++ onReauthenticationFailure store s, .returned⟩
      | some _ =>
        ⟨started ++
          [.set (.setChangeEmailLoading false),
           .set (.setShowReEnterPasswordPopup false),
           .ext (.dispatch (.setEmail s.unAppliedEmail)),
           .ext (.updateUserData store.uid (.email s.unAppliedEmail)),
           .ext (.updateUserEmail s.unAppliedEmail),
           .ext (.displayMessage (.ui store.language .changesApplied))], .returned⟩

end ProfileScreen

/-! ## SettingsScreen.js -/

namespace SettingsScreen

/-- The `useState` value of the settings screen. -/
structure State where
  showLogoutPopup : Bool
  deriving DecidableEq, Repr

/-- Calls of the state setter of the settings screen. -/
inductive Setter where
  | setShowLogoutPopup (value : Bool)
  deriving DecidableEq, Repr

/-- The build flag `__DEV__` and the constant of `Redux/InitialState`. -/
structure Env where
  dev : Bool
  initialState : UserData

/-- `onPressLogout()`. -/
def onPressLogout : Run Setter :=
  ⟨[.set (.setShowLogoutPopup false), .ext .logout, .ext .goBack], .returned⟩

/-- `deleteUserAndLogout()`. -/
def deleteUserAndLogout (env : Env) (store : Store) : Run Setter :=
  if !env.dev then ⟨[], .returned⟩
  else
    ⟨[.ext (.deleteUserDoc store.uid), .ext (.dispatch (.setUserData env.initialState))]
      ++ onPressLogout.trace, .returned⟩

/-- `onSelectLanguage(languageArg)`. -/
def onSelectLanguage (store : Store) (languageArg : String) : Run Setter :=
  ⟨[if languageArg ≠ store.deviceLanguage then .ext (.dispatch (.setLanguageIsSetManually true))
    else .ext (.dispatch (.setLanguageIsSetManually false)),
    .ext (.dispatch (.setLanguage languageArg))], .returned⟩

/-- `navigateToHelp()`. -/
def navigateToHelp : Run Setter :=
  ⟨[.ext (.navigate "Help")], .returned⟩

end SettingsScreen

/-! ## The shared store and the persisted profile documents

The reducer of the redux store and the Firestore module are not part of the sources; the
screens only dispatch to the one and call the other. -/

/-- Modelled from the spec: the shared state container, "process-wide, externally owned
store of cross-screen data (identity, preferences, connectivity), mutated only through
declared intents". Besides the slice the screens select it holds what the remaining intents
set: the profile data, the keep-logged-in flag, the admin flag and the
language-manually-set flag. -/
structure SharedState where
  store : Store
  profileData : UserData
  keepLoggedIn : Bool
  isAdmin : Bool
  languageIsSetManually : Bool
  deriving DecidableEq, Repr

/-- Modelled from the spec: the synchronous `dispatch(intent)` of the shared state container
with its recognized intents, "set profile data, set logged-in flag, set keep-logged-in flag,
set uid, set admin flag, set name/email/photo, set payment-customer-id, set language, set
language-manually-set flag, trigger appointments refetch". Each setting intent replaces the
one value it names; the refetch trigger changes none of them. -/
def SharedState.reduce (shared : SharedState) : Action → SharedState
  | .setUserData data => { shared with profileData := data }
  | .setUid uid => { shared with store := { shared.store with uid := uid } }
  | .setLoggedIn value => { shared with store := { shared.store with loggedIn := value } }
  | .setKeepLoggedIn value => { shared with keepLoggedIn := value }
  | .setIsAdmin value => { shared with isAdmin := value }
  | .setStripeCustomerId id =>
    { shared with store := { shared.store with stripeCustomerId := id } }
  | .fetchAppointments _ _ => shared
  | .setName name => { shared with store := { shared.store with name := name } }
  | .setEmail email => { shared with store := { shared.store with email := email } }
  | .setPhotoUrl url => { shared with store := { shared.store with photoUrl := url } }
  | .setLanguage language => { shared with store := { shared.store with language := language } }
  | .setLanguageIsSetManually value => { shared with languageIsSetManually := value }

/-- Modelled from the spec: the persisted profile document of a user, with the fields the
screens write ("updates shared state and the persisted document"). -/
structure ProfileDoc where
  name : String
  email : String
  photoUrl : String
  deriving DecidableEq, Repr

/-- Modelled from the spec: the fields of `partialFields` replace those of the document, the
other fields stay. -/
def ProfileDoc.update (doc : ProfileDoc) : UserFields → ProfileDoc
  | .name value => { doc with name := value }
  | .email value => { doc with email := value }
  | .photoUrl value => { doc with photoUrl := value }

/-- Modelled from the spec: the document store operation `updateProfile(id, partialFields)`,
on the documents keyed by user id. -/
def updateUserData (documents : String → ProfileDoc) (uid : String) (fields : UserFields) :
    String → ProfileDoc :=
  fun id => if id = uid then (documents id).update fields else documents id

/-- Modelled from the spec: what handlers act on outside their screen, the shared state and
the persisted profile documents. -/
structure World where
  shared : SharedState
  documents : String → ProfileDoc

/-- Modelled from the spec: the effect of one call on the shared state and on the persisted
documents. A `dispatch` goes through the reducer, an `updateUserData` through the document
store. The remaining calls, the deletion of a document among them, are not followed here:
no handler this is applied to makes one that writes a shared value or a document. -/
def World.perform (w : World) : Call → World
  | .dispatch action => { w with shared := w.shared.reduce action }
  | .updateUserData uid fields => { w with documents := updateUserData w.documents uid fields }
  | _ => w

/-- The shared state and the documents after the calls of a trace, in order. -/
def World.after {σ : Type} (w : World) (trace : List (Event σ)) : World :=
  (calls trace).foldl World.perform w

/-- One invocation of `applyChange({type: 'fullName', value})` of the profile screen rendered
from the current shared state, as seen from the shared state and the documents. -/
def ProfileScreen.applyFullName (env : ProfileScreen.Env) (value : String) (w : World) :
    World :=
  w.after (ProfileScreen.applyChange env w.shared.store "fullName" value).trace

/-- One invocation of `onSelectLanguage(languageArg)` of the settings screen rendered from
the current shared state, as seen from the shared state and the documents. -/
def SettingsScreen.selectLanguage (languageArg : String) (w : World) : World :=
  w.after (SettingsScreen.onSelectLanguage w.shared.store languageArg).trace

/-! ## The profile screen as a transition system

The events are `applyChange`, a press of the popup's confirm button (`changeEmail`), the
settling of a `loginUserIn` that a `changeEmail` awaits, and the dismissal of the popup. A
`changeEmail` runs up to its `await` when it is invoked; what is left of it runs when the
awaited call settles, with the values its closure captured, possibly after other events. -/

/-- The address a call carries into the store, the document or the account. -/
def Call.carriedEmail : Call → Option String
  | .dispatch (.setEmail address) => some address
  | .updateUserData _ (.email address) => some address
  | .updateUserEmail address => some address
  | _ => none

/-- A trace cut after its first `loginUserIn`, the call `changeEmail` awaits. -/
def splitAtLoginUserIn {σ : Type} : List (Event σ) → List (Event σ) × List (Event σ)
  | [] => ([], [])
  | .ext (.loginUserIn email password) :: rest => ([.ext (.loginUserIn email password)], rest)
  | event :: rest => (event :: (splitAtLoginUserIn rest).1, (splitAtLoginUserIn rest).2)

namespace ProfileScreen

/-- Setter calls that neither replace `unAppliedEmail` nor open the popup. -/
def Setter.keepsPendingEmail : Setter → Bool
  | .setUnAppliedEmail _ => false
  | .setShowReEnterPasswordPopup value => !value
  | _ => true

/-- An event of the profile screen, with the store snapshot of the render it happens in. -/
inductive Input where
  | applyChange (store : Store) (type value : String)
  | changeEmail (store : Store) (password : String) (outcome : Settled Credential)
  | settle (index : Nat)
  | dismiss

/-- The profile screen between events: its state, what is left to run of the `changeEmail`
invocations that await `loginUserIn`, the calls issued so far, and the value of the most
recent `applyChange` that opened the popup. -/
structure Machine where
  screen : State
  awaiting : List (List (Event Setter))
  issued : List Call
  accepted : Option String

/-- The freshly mounted screen. -/
def Machine.initial : Machine :=
  { screen := State.initial, awaiting := [], issued := [], accepted := none }

/-- Whether a run of `applyChange` accepted an address, that is, opened the popup. -/
def opensPopup (trace : List (Event Setter)) : Bool :=
  (sets trace).contains (.setShowReEnterPasswordPopup true)

/-- One event. The confirm button exists only while the popup is shown. -/
def step (env : Env) (m : Machine) : Input → Machine
  | .applyChange store type value =>
    let trace := (applyChange env store type value).trace
    { m with
      screen := m.screen.after trace
      issued := m.issued ++ calls trace
      accepted := if opensPopup trace then some value else m.accepted }
  | .changeEmail store password outcome =>
    if m.screen.showReEnterPasswordPopup then
      let run := changeEmail { env with loginUserIn := fun _ _ => outcome } store m.screen
        password
      let parts := splitAtLoginUserIn run.trace
      { m with
        screen := m.screen.after parts.1
        issued := m.issued ++ calls parts.1
        awaiting := m.awaiting ++ [parts.2] }
    else m
  | .settle index =>
    match m.awaiting[index]? with
    | none => m
    | some rest =>
      { m with
        screen := m.screen.after rest
        issued := m.issued ++ calls rest
        awaiting := m.awaiting.eraseIdx index }
  | .dismiss => { m with screen := m.screen.apply (.setShowReEnterPasswordPopup false) }

/-- The screen after a sequence of events. -/
def run (env : Env) (inputs : List Input) : Machine :=
  inputs.foldl (step env) Machine.initial

/-- The states the screen can be in. -/
inductive Reachable (env : Env) : Machine → Prop where
  | initial : Reachable env Machine.initial
  | step (m : Machine) (input : Input) : Reachable env m → Reachable env (step env m input)

/-- What holds between events: with the popup shown, `unAppliedEmail` is the most recently
accepted address and matches the pattern; what is left of a `changeEmail` neither replaces
`unAppliedEmail` nor opens the popup; and every address carried by a call that was issued,
or is still to be issued, matches the pattern. -/
structure Invariant (env : Env) (m : Machine) : Prop where
  popup : m.screen.showReEnterPasswordPopup = true →
    m.accepted = some m.screen.unAppliedEmail ∧ env.patterns.email m.screen.unAppliedEmail = true
  quiet : ∀ rest ∈ m.awaiting, ∀ u ∈ sets rest, u.keepsPendingEmail = true
  awaiting : ∀ rest ∈ m.awaiting, ∀ c ∈ calls rest, ∀ address,
    c.carriedEmail = some address → env.patterns.email address = true
  issued : ∀ c ∈ m.issued, ∀ address,
    c.carriedEmail = some address → env.patterns.email address = true

end ProfileScreen

/-! ## Concrete inputs -/

namespace Sample

/-- Stand-ins for the two patterns: an address contains `@`, a password has six characters
or more. -/
def patterns : RegexPatterns :=
  { email := fun text => text.toList.contains '@'
    password := fun text => decide (6 ≤ text.length) }

/-- A connected store of a user that has no Stripe customer yet. -/
def store : Store :=
  { language := "en", deviceLanguage := "en", isConnectedToInternet := true, loggedIn := false,
    uid := "u1", name := "Amira", email := "amira@example.com", photoUrl := "",
    stripeCustomerId := none }

/-- The same store while the device is offline. -/
def offlineStore : Store := { store with isConnectedToInternet := false }

/-- The same store once a Stripe customer was saved. -/
def customerStore : Store := { store with stripeCustomerId := some "cus_1" }

/-- A login form filled with a well-formed address and password. -/
def filledLogin : LoginScreen.State :=
  { LoginScreen.State.initial with email := "amira@example.com", password := "secret1" }

/-- A login form whose address is not an address. -/
def malformedLogin : LoginScreen.State :=
  { LoginScreen.State.initial with email := "amira", password := "secret1" }

/-- A login form without a password. -/
def blankPasswordLogin : LoginScreen.State :=
  { LoginScreen.State.initial with email := "amira@example.com", password := "" }

/-- A login environment with the given outcomes of sign-in and of the document fetch. -/
def loginEnv (signIn : Settled Credential) (document : Settled LoginScreen.UserDoc) :
    LoginScreen.Env :=
  { patterns := patterns
    loginUserIn := fun _ _ => signIn
    fetchUserData := fun _ => document
    checkAdministration := fun _ => .resolved ⟨true⟩
    sendResetPasswordEmail := fun _ => .resolved ()
    mentionsNoUserRecord := fun _ => false }

/-- Sign-in resolves with user `u1`. -/
def signedIn : Settled Credential := .resolved ⟨some ⟨"u1"⟩⟩

/-- A document snapshot of a user whose document is missing. -/
def missingDoc : LoginScreen.UserDoc := { «exists» := false, data := [] }

/-- A document snapshot of an existing user. -/
def existingDoc : LoginScreen.UserDoc := { «exists» := true, data := [("name", "Amira")] }

/-- The appointment the payment screen was opened for. -/
def params : RouteParams :=
  { selectedConsultant := "c7", appointmentUTCDateTime := "2021-03-01T10:00" }

/-- A payment environment with the given outcomes of the card form and of the endpoint. -/
def paymentEnv (form : Settled (Option PaymentScreen.Token))
    (customer : Settled PaymentScreen.Response) : PaymentScreen.Env :=
  { dev := false
    userType := "user"
    paymentRequestWithCardForm := form
    createAndSaveStripeCustomer := fun _ _ => customer
    schedule := fun _ => .resolved () }

/-- A profile environment with the given outcome of re-authentication. -/
def profileEnv (signIn : Settled Credential) : ProfileScreen.Env :=
  { patterns := patterns
    loginUserIn := fun _ _ => signIn
    getIosCameraAndPhotoLibraryPermissions := .resolved ⟨true, true⟩
    convertPhotoToBlob := fun _ => .resolved "blob"
    buildStorageRef := fun collection uid => collection ++ "/" ++ uid
    uploadPhotoAndRetrieveUrl := fun _ _ => .resolved "https://photos.example/u1" }

/-- The profile screen while the re-enter-password popup asks to confirm a new address. -/
def popupOpen : ProfileScreen.State :=
  { ProfileScreen.State.initial with
    showReEnterPasswordPopup := true, unAppliedEmail := "amira@work.example" }

/-- A production build of the settings screen. -/
def settingsEnv : SettingsScreen.Env :=
  { dev := false, initialState := [] }

/-- The error the failing services of the examples reject with. -/
def unavailable : JsError := ⟨some "unavailable", "The service is currently unavailable."⟩

/-- A payment environment whose scheduler rejects. -/
def failingScheduleEnv : PaymentScreen.Env :=
  { paymentEnv .pending .pending with schedule := fun _ => .rejected unavailable }

/-- A profile environment whose photo upload rejects. -/
def failingUploadEnv : ProfileScreen.Env :=
  { profileEnv signedIn with uploadPhotoAndRetrieveUrl := fun _ _ => .rejected unavailable }

/-- The response of the image picker after a photo was chosen. -/
def pickedPhoto : ProfileScreen.PickerResponse :=
  { didCancel := false, error := none, uri := "file:///photo.jpg" }

/-- The filled login form while a previous submit is still loading. -/
def busyLogin : LoginScreen.State := { filledLogin with loading := true }

/-- The open popup while a previous confirmation is still loading. -/
def busyPopup : ProfileScreen.State := { popupOpen with changeEmailLoading := true }

/-- A world around the connected store: one document, of user `u1`. -/
def world : World :=
  { shared := { store := store, profileData := [], keepLoggedIn := true, isAdmin := false,
                languageIsSetManually := false }
    documents := fun _ => { name := "Amira", email := "amira@example.com", photoUrl := "" } }

/-- A session of the profile screen: a new address is entered, a wrong password is
confirmed and rejected, then the right one is confirmed and accepted. -/
def session : List ProfileScreen.Input :=
  [.applyChange store "email" "amira@work.example",
   .changeEmail store "guess" (.rejected ⟨some "auth/wrong-password", "wrong"⟩),
   .settle 0,
   .changeEmail store "secret1" signedIn,
   .settle 0]

end Sample

/-! ## Properties of the login screen -/

theorem calls_append {σ : Type} (xs ys : List (Event σ)) :
    calls (xs ++ ys) = calls xs ++ calls ys := by
  induction xs with
  | nil => rfl
  | cons x xs ih => cases x <;> simp [calls, ih]

theorem sets_append {σ : Type} (xs ys : List (Event σ)) :
    sets (xs ++ ys) = sets xs ++ sets ys := by
  induction xs with
  | nil => rfl
  | cons x xs ih => cases x <;> simp [sets, ih]

theorem dispatched_append {σ : Type} (xs ys : List (Event σ)) :
    dispatched (xs ++ ys) = dispatched xs ++ dispatched ys := by
  induction xs with
  | nil => rfl
  | cons x xs ih =>
    cases x with
    | set u => simp [dispatched, ih]
    | ext c => cases c <;> simp [dispatched, ih]

theorem displayed_append {σ : Type} (xs ys : List (Event σ)) :
    displayed (xs ++ ys) = displayed xs ++ displayed ys := by
  induction xs with
  | nil => rfl
  | cons x xs ih =>
    cases x with
    | set u => simp [displayed, ih]
    | ext c => cases c <;> simp [displayed, ih]

namespace LoginScreen

/-- The run of `onPressLogin` when validation passes, the device is connected and sign-in
resolves with a user: the handler's own prefix followed by `onPressLoginWithUser`. -/
theorem onPressLogin_signed_in (env : Env) (store : Store) (s : State) (user : User)
    (hEmail : s.email ≠ "") (hEmailOk : env.patterns.email s.email = true)
    (hPassword : s.password ≠ "") (hPasswordOk : env.patterns.password s.password = true)
    (hOnline : store.isConnectedToInternet = true)
    (hSignIn : env.loginUserIn s.email s.password = .resolved ⟨some user⟩) :
    onPressLogin env store s =
      ⟨[.ext .keyboardDismiss,
        .set (.setEmailErrorMessage (.raw "")),
        .set (.setPasswordErrorMessage (.raw "")),
        .set (.setLoading true),
        .ext (.loginUserIn s.email s.password)]
        ++ (onPressLoginWithUser env store s user).trace,
       (onPressLoginWithUser env store s user).completion⟩ := by
  simp [onPressLogin, validateEmail, validatePassword, hEmail, hEmailOk, hPassword,
    hPasswordOk, hOnline, hSignIn]

/-- The run of `onPressLogin` when validation passes, the device is connected and the
sign-in step fails with `error`. -/
theorem onPressLogin_sign_in_failed (env : Env) (store : Store) (s : State) (error : JsError)
    (hEmail : s.email ≠ "") (hEmailOk : env.patterns.email s.email = true)
    (hPassword : s.password ≠ "") (hPasswordOk : env.patterns.password s.password = true)
    (hOnline : store.isConnectedToInternet = true)
    (hSignIn : env.loginUserIn s.email s.password = .rejected error ∨
      (env.loginUserIn s.email s.password = .resolved ⟨none⟩ ∧
        error = JsError.ofMessage "User is undefined")) :
    onPressLogin env store s =
      ⟨[.ext .keyboardDismiss,
        .set (.setEmailErrorMessage (.raw "")),
        .set (.setPasswordErrorMessage (.raw "")),
        .set (.setLoading true),
        .ext (.loginUserIn s.email s.password)]
        ++ handleLoginError store error ++ [.set (.setLoading false)], .returned⟩ := by
  rcases hSignIn with h | ⟨h, rfl⟩ <;>
    simp [onPressLogin, onLoginFailure, validateEmail, validatePassword, hEmail, hEmailOk,
      hPassword, hPasswordOk, hOnline, h]

/-- C1, the code at the failing input: address and password pass validation, the device is
connected, sign-in resolves with user `u1` and the fetched document reports `exists = false`.
The handler returns without navigating and without dispatching anything, but `loading`,
set to `true` before the sign-in call, is still `true` after the run. -/
theorem onPressLogin_missing_document_leaves_loading_set :
    (onPressLogin (Sample.loginEnv Sample.signedIn (.resolved Sample.missingDoc))
      Sample.store Sample.filledLogin).completion = .returned ∧
    (Sample.filledLogin.after
      (onPressLogin (Sample.loginEnv Sample.signedIn (.resolved Sample.missingDoc))
        Sample.store Sample.filledLogin).trace).loading = true ∧
    (calls (onPressLogin (Sample.loginEnv Sample.signedIn (.resolved Sample.missingDoc))
      Sample.store Sample.filledLogin).trace).filter Call.isNavigation = [] ∧
    dispatched (onPressLogin (Sample.loginEnv Sample.signedIn (.resolved Sample.missingDoc))
      Sample.store Sample.filledLogin).trace = [] := by
  decide

/-- C3: when validation passes, the device is connected, sign-in resolves with a user of
uid `u` and `fetchUserData u` resolves with an existing document `d`, the handler returns;
apart from the `setIsAdmin` of the administration callback it dispatches exactly
`setUserData d.data`, `setUid u`, `setLoggedIn true` and `setKeepLoggedIn` of the checkbox
value, once each; it navigates exactly once, to `Main`; it registers for push notifications
exactly once, with `u`; and `loading` is `false` after the run. -/
theorem onPressLogin_existing_document (env : Env) (store : Store) (s : State) (u : String)
    (d : UserDoc)
    (hEmail : s.email ≠ "") (hEmailOk : env.patterns.email s.email = true)
    (hPassword : s.password ≠ "") (hPasswordOk : env.patterns.password s.password = true)
    (hOnline : store.isConnectedToInternet = true)
    (hSignIn : env.loginUserIn s.email s.password = .resolved ⟨some ⟨u⟩⟩)
    (hDoc : env.fetchUserData u = .resolved d) (hExists : d.exists = true) :
    (onPressLogin env store s).completion = .returned ∧
    (dispatched (onPressLogin env store s).trace).filter
        (fun a => decide (a ≠ Action.setIsAdmin true)) =
      [.setUserData d.data, .setUid u, .setLoggedIn true,
       .setKeepLoggedIn s.keepUserLoggedIn] ∧
    (calls (onPressLogin env store s).trace).filter Call.isNavigation = [.navigate "Main"] ∧
    (calls (onPressLogin env store s).trace).filter Call.isPushRegistration =
      [.registerForPushNotifications u] ∧
    (s.after (onPressLogin env store s).trace).loading = false := by
  rw [onPressLogin_signed_in env store s ⟨u⟩ hEmail hEmailOk hPassword hPasswordOk hOnline
    hSignIn]
  simp only [onPressLoginWithUser, hDoc, hExists, if_true]
  cases hAdmin : env.checkAdministration s.email with
  | resolved snap =>
    cases hEmpty : snap.empty <;>
      simp [checkAdministrationCallback, hEmpty, dispatchDataToStore, dispatched, calls, sets,
        State.after, State.apply, Call.isNavigation, Call.isPushRegistration]
  | rejected e =>
    simp [checkAdministrationCallback, dispatchDataToStore, dispatched, calls, sets,
      State.after, State.apply, Call.isNavigation, Call.isPushRegistration]
  | pending =>
    simp [checkAdministrationCallback, dispatchDataToStore, dispatched, calls, sets,
      State.after, State.apply, Call.isNavigation, Call.isPushRegistration]

/-- Witness of C3: the filled form, connected, user `u1`, an existing document. -/
theorem onPressLogin_existing_document_witness :
    (onPressLogin (Sample.loginEnv Sample.signedIn (.resolved Sample.existingDoc))
      Sample.store Sample.filledLogin).completion = .returned ∧
    (dispatched (onPressLogin (Sample.loginEnv Sample.signedIn (.resolved Sample.existingDoc))
      Sample.store Sample.filledLogin).trace).filter
        (fun a => decide (a ≠ Action.setIsAdmin true)) =
      [.setUserData Sample.existingDoc.data, .setUid "u1", .setLoggedIn true,
       .setKeepLoggedIn Sample.filledLogin.keepUserLoggedIn] ∧
    (calls (onPressLogin (Sample.loginEnv Sample.signedIn (.resolved Sample.existingDoc))
      Sample.store Sample.filledLogin).trace).filter Call.isNavigation = [.navigate "Main"] ∧
    (calls (onPressLogin (Sample.loginEnv Sample.signedIn (.resolved Sample.existingDoc))
      Sample.store Sample.filledLogin).trace).filter Call.isPushRegistration =
      [.registerForPushNotifications "u1"] ∧
    (Sample.filledLogin.after
      (onPressLogin (Sample.loginEnv Sample.signedIn (.resolved Sample.existingDoc))
        Sample.store Sample.filledLogin).trace).loading = false :=
  onPressLogin_existing_document
    (Sample.loginEnv Sample.signedIn (.resolved Sample.existingDoc)) Sample.store
    Sample.filledLogin "u1" Sample.existingDoc (by decide) (by decide) (by decide) (by decide)
    (by decide) rfl rfl rfl

/-- C4: for a non-empty address that does not match the email pattern, whatever the
password and the connectivity, `validateEmail` does not return `true` and sets the email
field error to `UIText[language].invalidEmail`; `onPressLogin` returns with that field error
in place, and it calls no service, dispatches nothing, does not navigate and never calls
`setLoading`. -/
theorem onPressLogin_malformed_email (env : Env) (store : Store) (s : State)
    (hEmail : s.email ≠ "") (hNoMatch : env.patterns.email s.email = false) :
    validateEmail env store s =
      ([.set (.setEmailErrorMessage (.ui store.language .invalidEmail))], false) ∧
    (onPressLogin env store s).completion = .returned ∧
    (s.after (onPressLogin env store s).trace).emailErrorMessage =
      some (.ui store.language .invalidEmail) ∧
    (∀ c ∈ calls (onPressLogin env store s).trace,
      c.isService = false ∧ c.isDispatch = false ∧ c.isNavigation = false) ∧
    (∀ u ∈ sets (onPressLogin env store s).trace, u.isSetLoading = false) := by
  have hv : validateEmail env store s =
      ([.set (.setEmailErrorMessage (.ui store.language .invalidEmail))], false) := by
    simp [validateEmail, hEmail, hNoMatch]
  refine ⟨hv, ?_⟩
  simp only [onPressLogin, hv]
  by_cases hp : s.password = ""
  · simp [validatePassword, hp, calls, sets, State.after, State.apply, Call.isService,
      Call.isDispatch, Call.isNavigation, Setter.isSetLoading]
  · cases hm : env.patterns.password s.password <;>
      simp [validatePassword, hp, hm, calls, sets, State.after, State.apply, Call.isService,
        Call.isDispatch, Call.isNavigation, Setter.isSetLoading]

/-- Witness of C4: the address `amira` has no `@`. -/
theorem onPressLogin_malformed_email_witness :
    validateEmail (Sample.loginEnv Sample.signedIn .pending) Sample.store
        Sample.malformedLogin =
      ([.set (.setEmailErrorMessage (.ui "en" .invalidEmail))], false) ∧
    (onPressLogin (Sample.loginEnv Sample.signedIn .pending) Sample.store
      Sample.malformedLogin).completion = .returned :=
  ⟨(onPressLogin_malformed_email (Sample.loginEnv Sample.signedIn .pending) Sample.store
      Sample.malformedLogin (by decide) (by decide)).1,
   (onPressLogin_malformed_email (Sample.loginEnv Sample.signedIn .pending) Sample.store
      Sample.malformedLogin (by decide) (by decide)).2.1⟩

/-- C5: when the password is the empty string, whatever the address and the connectivity,
`onPressLogin` calls the password-error setter exactly once, with
`UIText[language].blankPassword` (so not with `invalidPassword`), that text is the password
field error after the run, the handler returns, and `loginUserIn` is never called. -/
theorem onPressLogin_blank_password (env : Env) (store : Store) (s : State)
    (hBlank : s.password = "") :
    (onPressLogin env store s).completion = .returned ∧
    (sets (onPressLogin env store s).trace).filter Setter.isSetPasswordErrorMessage =
      [.setPasswordErrorMessage (.ui store.language .blankPassword)] ∧
    (s.after (onPressLogin env store s).trace).passwordErrorMessage =
      some (.ui store.language .blankPassword) ∧
    Text.ui store.language .blankPassword ≠ Text.ui store.language .invalidPassword ∧
    (∀ c ∈ calls (onPressLogin env store s).trace, c.isLoginUserIn = false) := by
  have hv : validatePassword env store s =
      ([.set (.setPasswordErrorMessage (.ui store.language .blankPassword))], false) := by
    simp [validatePassword, hBlank]
  simp only [onPressLogin, hv]
  by_cases he : s.email = ""
  · simp [validateEmail, he, calls, sets, State.after, State.apply, Call.isLoginUserIn,
      Setter.isSetPasswordErrorMessage]
  · cases hm : env.patterns.email s.email <;>
      simp [validateEmail, he, hm, calls, sets, State.after, State.apply, Call.isLoginUserIn,
        Setter.isSetPasswordErrorMessage]

/-- Witness of C5: a well-formed address, an empty password. -/
theorem onPressLogin_blank_password_witness :
    (Sample.blankPasswordLogin.after
      (onPressLogin (Sample.loginEnv Sample.signedIn .pending) Sample.store
        Sample.blankPasswordLogin).trace).passwordErrorMessage =
      some (.ui "en" .blankPassword) :=
  (onPressLogin_blank_password (Sample.loginEnv Sample.signedIn .pending) Sample.store
    Sample.blankPasswordLogin rfl).2.2.1

/-- C6: when validation passes, the device is connected and the sign-in step fails with
`error` (what `loginUserIn` rejected with, or the `Error('User is undefined')` thrown when it
resolves without a user): for the code `auth/network-request-failed` the check-connection
message is displayed, for `auth/user-not-found` the `noUserMessage`, and for every other
error `reportProblem` is called with it and its raw message is displayed; in each case
exactly one message is displayed, the handler returns with `loading` false, and
`fetchUserData`, `updateUserPrivateData`, `checkAdministration`, `dispatch`,
`registerForPushNotifications` and navigation are never called. -/
theorem onPressLogin_sign_in_failure (env : Env) (store : Store) (s : State) (error : JsError)
    (hEmail : s.email ≠ "") (hEmailOk : env.patterns.email s.email = true)
    (hPassword : s.password ≠ "") (hPasswordOk : env.patterns.password s.password = true)
    (hOnline : store.isConnectedToInternet = true)
    (hSignIn : env.loginUserIn s.email s.password = .rejected error ∨
      (env.loginUserIn s.email s.password = .resolved ⟨none⟩ ∧
        error = JsError.ofMessage "User is undefined")) :
    (error.code = some "auth/network-request-failed" →
      displayed (onPressLogin env store s).trace =
        [.checkInternetConnectionAndTry store.language none]) ∧
    (error.code = some "auth/user-not-found" →
      displayed (onPressLogin env store s).trace = [.ui store.language .noUserMessage]) ∧
    (error.code ≠ some "auth/network-request-failed" →
      error.code ≠ some "auth/user-not-found" →
      (calls (onPressLogin env store s).trace).filter Call.isReportProblem =
          [.reportProblem error] ∧
        displayed (onPressLogin env store s).trace = [.raw error.message]) ∧
    (displayed (onPressLogin env store s).trace).length = 1 ∧
    (onPressLogin env store s).completion = .returned ∧
    (s.after (onPressLogin env store s).trace).loading = false ∧
    (∀ c ∈ calls (onPressLogin env store s).trace,
      c.isFetchUserData = false ∧ c.isUpdateUserPrivateData = false ∧
      c.isCheckAdministration = false ∧ c.isDispatch = false ∧
      c.isPushRegistration = false ∧ c.isNavigation = false) := by
  rw [onPressLogin_sign_in_failed env store s error hEmail hEmailOk hPassword hPasswordOk
    hOnline hSignIn]
  by_cases hNet : error.code = some "auth/network-request-failed"
  · simp [handleLoginError, displayNoConnectionMessage, hNet, displayed, calls, sets,
      State.after, State.apply, Call.isFetchUserData, Call.isUpdateUserPrivateData,
      Call.isCheckAdministration, Call.isDispatch, Call.isPushRegistration, Call.isNavigation]
  · by_cases hUser : error.code = some "auth/user-not-found"
    · simp [handleLoginError, displayNoConnectionMessage, hUser, displayed, calls, sets,
        State.after, State.apply, Call.isFetchUserData, Call.isUpdateUserPrivateData,
        Call.isCheckAdministration, Call.isDispatch, Call.isPushRegistration,
        Call.isNavigation]
    · simp [handleLoginError, displayNoConnectionMessage, hNet, hUser, displayed, calls, sets,
        State.after, State.apply, Call.isFetchUserData, Call.isUpdateUserPrivateData,
        Call.isCheckAdministration, Call.isDispatch, Call.isPushRegistration,
        Call.isNavigation, Call.isReportProblem]

/-- Witness of C6: sign-in rejects with the code `auth/wrong-password`. -/
theorem onPressLogin_sign_in_failure_witness :
    displayed (onPressLogin
      (Sample.loginEnv (.rejected ⟨some "auth/wrong-password", "The password is invalid."⟩)
        .pending) Sample.store Sample.filledLogin).trace =
      [.raw "The password is invalid."] :=
  ((onPressLogin_sign_in_failure
    (Sample.loginEnv (.rejected ⟨some "auth/wrong-password", "The password is invalid."⟩)
      .pending) Sample.store Sample.filledLogin
    ⟨some "auth/wrong-password", "The password is invalid."⟩
    (by decide) (by decide) (by decide) (by decide) (by decide) (Or.inl rfl)).2.2.1
      (by decide) (by decide)).2

end LoginScreen

/-! ## Properties of the payment screen -/

namespace PaymentScreen

/-- C7: with the device connected and a non-empty `stripeCustomerId` in the store, the run of
`completePaymentsWithStripe` is exactly one run of `onPaymentComplete`: `schedule` is called
once, with `route.params`, and neither the card form nor `createAndSaveStripeCustomer` is
called, nor is `setStripeCustomerId` dispatched. -/
theorem completePaymentsWithStripe_saved_customer (env : Env) (store : Store)
    (params : RouteParams) (id : String)
    (hOnline : store.isConnectedToInternet = true)
    (hId : store.stripeCustomerId = some id) (hNonEmpty : id ≠ "") :
    (completePaymentsWithStripe env store params).completion = .returned ∧
    (completePaymentsWithStripe env store params).trace =
      (onPaymentComplete env store params).trace ∧
    (calls (completePaymentsWithStripe env store params).trace).filter Call.isSchedule =
      [.schedule params] ∧
    (∀ c ∈ calls (completePaymentsWithStripe env store params).trace,
      c.isCardForm = false ∧ c.isCreateAndSaveStripeCustomer = false ∧
      c.isSetStripeCustomerId = false) := by
  have hHas : hasStripeCustomerId store = true := by simp [hasStripeCustomerId, hId, hNonEmpty]
  simp only [completePaymentsWithStripe, hOnline, hHas]
  cases hs : env.schedule params <;>
    simp [onPaymentComplete, hs, calls, Call.isSchedule, Call.isCardForm,
      Call.isCreateAndSaveStripeCustomer, Call.isSetStripeCustomerId]

/-- Witness of C7: the store holds the customer `cus_1`. -/
theorem completePaymentsWithStripe_saved_customer_witness :
    (calls (completePaymentsWithStripe (Sample.paymentEnv .pending .pending)
      Sample.customerStore Sample.params).trace).filter Call.isSchedule =
      [.schedule Sample.params] :=
  (completePaymentsWithStripe_saved_customer (Sample.paymentEnv .pending .pending)
    Sample.customerStore Sample.params "cus_1" rfl rfl (by decide)).2.2.1

/-- C8: with the device connected, no `stripeCustomerId` in the store and `showCardForm`
returning `null`, `completePaymentsWithStripe` returns after the card form without any
further call: no `createAndSaveStripeCustomer`, no `schedule`, no `dispatch`, no
`displayMessage`; it calls no state setter, so the screen state (the success-modal flag
included) is unchanged. -/
theorem completePaymentsWithStripe_canceled (env : Env) (store : Store)
    (params : RouteParams) (s : State)
    (hOnline : store.isConnectedToInternet = true)
    (hNoId : store.stripeCustomerId = none ∨ store.stripeCustomerId = some "")
    (hNoToken : showCardForm env = some none) :
    (completePaymentsWithStripe env store params).completion = .returned ∧
    calls (completePaymentsWithStripe env store params).trace =
      [.paymentRequestWithCardForm] ∧
    (∀ c ∈ calls (completePaymentsWithStripe env store params).trace,
      c.isCreateAndSaveStripeCustomer = false ∧ c.isSchedule = false ∧
      c.isDispatch = false ∧ c.isDisplayMessage = false) ∧
    sets (completePaymentsWithStripe env store params).trace = [] ∧
    s.after (completePaymentsWithStripe env store params).trace = s ∧
    (s.showSuccessModal = false →
      (s.after (completePaymentsWithStripe env store params).trace).showSuccessModal =
        false) := by
  have hHas : hasStripeCustomerId store = false := by
    rcases hNoId with h | h <;> simp [hasStripeCustomerId, h]
  simp [completePaymentsWithStripe, hOnline, hHas, hNoToken, calls, sets, State.after,
    Call.isCreateAndSaveStripeCustomer, Call.isSchedule, Call.isDispatch,
    Call.isDisplayMessage]

/-- Witness of C8: the card form rejects, which `showCardForm` turns into `null`. -/
theorem completePaymentsWithStripe_canceled_witness :
    calls (completePaymentsWithStripe
      (Sample.paymentEnv (.rejected (JsError.ofMessage "cancelled")) .pending)
      Sample.store Sample.params).trace = [.paymentRequestWithCardForm] :=
  (completePaymentsWithStripe_canceled
    (Sample.paymentEnv (.rejected (JsError.ofMessage "cancelled")) .pending)
    Sample.store Sample.params State.initial rfl (Or.inl rfl) rfl).2.1

/-- C9: with the device connected, no `stripeCustomerId` in the store and a card token `t`,
`createAndSaveStripeCustomer` is called exactly once, with `t.tokenId` and the user's email.
If it resolves with `r`, the handler dispatches `setStripeCustomerId r.data` and then starts
`onPaymentComplete`, once. If it rejects with `e`, the handler calls `reportProblem e` and
displays `UIText[language].somethingWentWrong`, dispatches no `setStripeCustomerId` and
does not start the completion (no `schedule`). -/
theorem completePaymentsWithStripe_with_token (env : Env) (store : Store)
    (params : RouteParams) (t : Token)
    (hOnline : store.isConnectedToInternet = true)
    (hNoId : store.stripeCustomerId = none ∨ store.stripeCustomerId = some "")
    (hToken : showCardForm env = some (some t)) :
    (calls (completePaymentsWithStripe env store params).trace).filter
        Call.isCreateAndSaveStripeCustomer =
      [.createAndSaveStripeCustomer t.tokenId store.email] ∧
    (∀ r, env.createAndSaveStripeCustomer t.tokenId store.email = .resolved r →
      (completePaymentsWithStripe env store params).completion = .returned ∧
      (completePaymentsWithStripe env store params).trace =
        [.ext .paymentRequestWithCardForm,
         .ext (.createAndSaveStripeCustomer t.tokenId store.email),
         .ext (.dispatch (.setStripeCustomerId r.data))]
          ++ (onPaymentComplete env store params).trace ∧
      (calls (completePaymentsWithStripe env store params).trace).filter Call.isSchedule =
        [.schedule params]) ∧
    (∀ e, env.createAndSaveStripeCustomer t.tokenId store.email = .rejected e →
      (completePaymentsWithStripe env store params).completion = .returned ∧
      calls (completePaymentsWithStripe env store params).trace =
        [.paymentRequestWithCardForm,
         .createAndSaveStripeCustomer t.tokenId store.email,
         .reportProblem e,
         .displayMessage (.ui store.language .somethingWentWrong)] ∧
      (∀ c ∈ calls (completePaymentsWithStripe env store params).trace,
        c.isSetStripeCustomerId = false ∧ c.isSchedule = false)) := by
  have hHas : hasStripeCustomerId store = false := by
    rcases hNoId with h | h <;> simp [hasStripeCustomerId, h]
  simp only [completePaymentsWithStripe, hOnline, hHas, hToken]
  cases hc : env.createAndSaveStripeCustomer t.tokenId store.email with
  | resolved r =>
    cases hs : env.schedule params <;>
      simp [onPaymentComplete, hs, calls, Call.isCreateAndSaveStripeCustomer, Call.isSchedule]
  | rejected e =>
    simp [calls, Call.isCreateAndSaveStripeCustomer, Call.isSchedule,
      Call.isSetStripeCustomerId]
  | pending =>
    simp [calls, Call.isCreateAndSaveStripeCustomer]

/-- Witness of C9: the card form yields the token `tok_1`, the endpoint answers `cus_9`. -/
theorem completePaymentsWithStripe_with_token_witness :
    (calls (completePaymentsWithStripe
      (Sample.paymentEnv (.resolved (some ⟨"tok_1"⟩)) (.resolved ⟨some "cus_9"⟩))
      Sample.store Sample.params).trace).filter Call.isCreateAndSaveStripeCustomer =
      [.createAndSaveStripeCustomer "tok_1" "amira@example.com"] :=
  (completePaymentsWithStripe_with_token
    (Sample.paymentEnv (.resolved (some ⟨"tok_1"⟩)) (.resolved ⟨some "cus_9"⟩))
    Sample.store Sample.params ⟨"tok_1"⟩ rfl (Or.inl rfl) rfl).1

end PaymentScreen

/-! ## Properties of the profile screen -/

namespace ProfileScreen

/-- C10: for a non-empty password whose re-authentication fails (`loginUserIn` rejects or
resolves without a user), `changeEmail` returns; with the popup open it leaves
`UIText[language].incorrectPassword` as the popup's password error and displays no floating
message, with the popup closed it displays that text as a floating message; it dispatches
nothing (so no `setEmail`), calls neither `updateUserData` nor `updateUserEmail`, and
leaves `unAppliedEmail` unchanged. -/
theorem changeEmail_reauthentication_failure (env : Env) (store : Store) (s : State)
    (password : String) (hPassword : password ≠ "")
    (hFail : (∃ e, env.loginUserIn store.email password = .rejected e) ∨
      env.loginUserIn store.email password = .resolved ⟨none⟩) :
    (changeEmail env store s password).completion = .returned ∧
    (s.showReEnterPasswordPopup = true →
      (s.after (changeEmail env store s password).trace).passwordErrorMessage =
          .ui store.language .incorrectPassword ∧
        displayed (changeEmail env store s password).trace = []) ∧
    (s.showReEnterPasswordPopup = false →
      displayed (changeEmail env store s password).trace =
        [.ui store.language .incorrectPassword]) ∧
    (∀ c ∈ calls (changeEmail env store s password).trace,
      c.isDispatch = false ∧ c.isUpdateUserData = false ∧ c.isUpdateUserEmail = false) ∧
    (s.after (changeEmail env store s password).trace).unAppliedEmail = s.unAppliedEmail := by
  have hRun : changeEmail env store s password =
      ⟨[.set (.setPasswordErrorMessage (.raw "")),
        .set (.setChangeEmailLoading true),
        .ext (.loginUserIn store.email password)] ++ onReauthenticationFailure store s,
       .returned⟩ := by
    rcases hFail with ⟨e, h⟩ | h <;> simp [changeEmail, hPassword, h]
  rw [hRun]
  cases hPopup : s.showReEnterPasswordPopup <;>
    simp [onReauthenticationFailure, hPopup, displayed, calls, sets, State.after, State.apply,
      Call.isDispatch, Call.isUpdateUserData, Call.isUpdateUserEmail]

/-- Witness of C10: the popup is open and sign-in rejects with `auth/wrong-password`. -/
theorem changeEmail_reauthentication_failure_witness :
    (Sample.popupOpen.after
      (changeEmail (Sample.profileEnv (.rejected ⟨some "auth/wrong-password", "wrong"⟩))
        Sample.store Sample.popupOpen "guess").trace).unAppliedEmail =
      "amira@work.example" :=
  (changeEmail_reauthentication_failure
    (Sample.profileEnv (.rejected ⟨some "auth/wrong-password", "wrong"⟩))
    Sample.store Sample.popupOpen "guess" (by decide) (Or.inl ⟨_, rfl⟩)).2.2.2.2

end ProfileScreen

/-! ## Submitting while offline -/

/-- C2 as stated fails: offline, `onPressLogin` on a form with a malformed address displays no
message at all, so not the check-connection message either; and offline, `changeEmail`
with a non-empty password still calls the service `loginUserIn`. -/
theorem offline_submit_counterexample :
    ¬ (Text.checkInternetConnectionAndTry "en" none ∈
        displayed (LoginScreen.onPressLogin (Sample.loginEnv Sample.signedIn .pending)
          Sample.offlineStore Sample.malformedLogin).trace) ∧
    ¬ (∀ c ∈ calls (ProfileScreen.changeEmail (Sample.profileEnv Sample.signedIn)
          Sample.offlineStore Sample.popupOpen "secret1").trace, c.isService = false) := by
  decide

/-- C2, amended: with `isConnectedToInternet = false`, `onPressLogin` calls no service and
displays the check-connection message exactly when address and password pass validation
(otherwise it displays nothing); `completePaymentsWithStripe` and `applyChange` make one
call only, the display of the check-connection message. -/
theorem offline_submit_makes_no_service_call (loginEnv : LoginScreen.Env)
    (paymentEnv : PaymentScreen.Env) (profileEnv : ProfileScreen.Env) (store : Store)
    (s : LoginScreen.State) (params : RouteParams) (type value : String)
    (hOffline : store.isConnectedToInternet = false) :
    (∀ c ∈ calls (LoginScreen.onPressLogin loginEnv store s).trace, c.isService = false) ∧
    ((LoginScreen.validateEmail loginEnv store s).2 = true →
      (LoginScreen.validatePassword loginEnv store s).2 = true →
      displayed (LoginScreen.onPressLogin loginEnv store s).trace =
        [.checkInternetConnectionAndTry store.language none]) ∧
    (((LoginScreen.validateEmail loginEnv store s).2 = false ∨
        (LoginScreen.validatePassword loginEnv store s).2 = false) →
      displayed (LoginScreen.onPressLogin loginEnv store s).trace = []) ∧
    calls (PaymentScreen.completePaymentsWithStripe paymentEnv store params).trace =
      [.displayMessage (.checkInternetConnectionAndTry store.language none)] ∧
    calls (ProfileScreen.applyChange profileEnv store type value).trace =
      [.displayMessage (.checkInternetConnectionAndTry store.language none)] := by
  refine ⟨?_, ?_, ?_, ?_, ?_⟩
  · by_cases he : s.email = "" <;> by_cases hp : s.password = "" <;>
      cases hme : loginEnv.patterns.email s.email <;>
      cases hmp : loginEnv.patterns.password s.password <;>
      simp [LoginScreen.onPressLogin, LoginScreen.validateEmail, LoginScreen.validatePassword,
        LoginScreen.displayNoConnectionMessage, he, hp, hme, hmp, hOffline, calls,
        Call.isService]
  · by_cases he : s.email = "" <;> by_cases hp : s.password = "" <;>
      cases hme : loginEnv.patterns.email s.email <;>
      cases hmp : loginEnv.patterns.password s.password <;>
      simp [LoginScreen.onPressLogin, LoginScreen.validateEmail, LoginScreen.validatePassword,
        LoginScreen.displayNoConnectionMessage, he, hp, hme, hmp, hOffline, displayed]
  · by_cases he : s.email = "" <;> by_cases hp : s.password = "" <;>
      cases hme : loginEnv.patterns.email s.email <;>
      cases hmp : loginEnv.patterns.password s.password <;>
      simp [LoginScreen.onPressLogin, LoginScreen.validateEmail, LoginScreen.validatePassword,
        LoginScreen.displayNoConnectionMessage, he, hp, hme, hmp, hOffline, displayed]
  · simp [PaymentScreen.completePaymentsWithStripe, hOffline, calls]
  · simp [ProfileScreen.applyChange, hOffline, calls]

/-- Witness of the amended C2: the filled login form while offline. -/
theorem offline_submit_makes_no_service_call_witness :
    displayed (LoginScreen.onPressLogin (Sample.loginEnv Sample.signedIn .pending)
      Sample.offlineStore Sample.filledLogin).trace =
      [.checkInternetConnectionAndTry "en" none] :=
  (offline_submit_makes_no_service_call (Sample.loginEnv Sample.signedIn .pending)
    (Sample.paymentEnv .pending .pending) (Sample.profileEnv Sample.signedIn)
    Sample.offlineStore Sample.filledLogin Sample.params "fullName" "Amira" rfl).2.1
    (by decide) (by decide)

/-! ## Failures of awaited calls, re-entrant submits and developer-only handlers -/

/-- C12, the code at two failing inputs. With a saved Stripe customer and a scheduler that
rejects, `onPaymentComplete` ends by throwing and the whole run of
`completePaymentsWithStripe` displays no message and calls no setter. With an upload that
rejects, the image-picker callback ends by throwing, displays no message, and the only
setter it has called is `setUploadingPicture(true)`, so the picture keeps loading. -/
theorem awaited_failure_without_message :
    (PaymentScreen.onPaymentComplete Sample.failingScheduleEnv Sample.customerStore
      Sample.params).completion = .threw Sample.unavailable ∧
    displayed (PaymentScreen.completePaymentsWithStripe Sample.failingScheduleEnv
      Sample.customerStore Sample.params).trace = [] ∧
    sets (PaymentScreen.completePaymentsWithStripe Sample.failingScheduleEnv
      Sample.customerStore Sample.params).trace = [] ∧
    (ProfileScreen.onImagePicked Sample.failingUploadEnv Sample.store
      Sample.pickedPhoto).completion = .threw Sample.unavailable ∧
    displayed (ProfileScreen.onImagePicked Sample.failingUploadEnv Sample.store
      Sample.pickedPhoto).trace = [] ∧
    sets (ProfileScreen.onImagePicked Sample.failingUploadEnv Sample.store
      Sample.pickedPhoto).trace = [.setUploadingPicture true] ∧
    (ProfileScreen.State.initial.after (ProfileScreen.onImagePicked Sample.failingUploadEnv
      Sample.store Sample.pickedPhoto).trace).uploadingPicture = true := by
  decide

/-- C13 as stated fails: invoked while `loading` is true, `onPressLogin` on a valid form with
the device connected calls `loginUserIn`; invoked while `changeEmailLoading` is true,
`changeEmail` with a non-empty password calls `loginUserIn`. -/
theorem submit_while_loading_counterexample :
    ¬ (∀ c ∈ calls (LoginScreen.onPressLogin (Sample.loginEnv .pending .pending) Sample.store
        Sample.busyLogin).trace, c.isService = false) ∧
    ¬ (∀ c ∈ calls (ProfileScreen.changeEmail (Sample.profileEnv .pending) Sample.store
        Sample.busyPopup "secret1").trace, c.isService = false) := by
  decide

/-- C13, amended: `onPressLogin` and `changeEmail` do not read the loading flag of their
screen. Each run is the same whatever the value of `loading` (of `changeEmailLoading`); so
with the flag true, `onPressLogin` on a valid form with the device connected, and
`changeEmail` with a non-empty password, call `loginUserIn`. -/
theorem submit_ignores_loading_flag (loginEnv : LoginScreen.Env)
    (profileEnv : ProfileScreen.Env) (store : Store) (s : LoginScreen.State)
    (p : ProfileScreen.State) (password : String) :
    (∀ b, LoginScreen.onPressLogin loginEnv store { s with loading := b } =
      LoginScreen.onPressLogin loginEnv store s) ∧
    (∀ b, ProfileScreen.changeEmail profileEnv store { p with changeEmailLoading := b }
        password = ProfileScreen.changeEmail profileEnv store p password) ∧
    (s.email ≠ "" → loginEnv.patterns.email s.email = true → s.password ≠ "" →
      loginEnv.patterns.password s.password = true → store.isConnectedToInternet = true →
      Call.loginUserIn s.email s.password ∈
        calls (LoginScreen.onPressLogin loginEnv store { s with loading := true }).trace) ∧
    (password ≠ "" →
      Call.loginUserIn store.email password ∈
        calls (ProfileScreen.changeEmail profileEnv store
          { p with changeEmailLoading := true } password).trace) := by
  refine ⟨fun b => rfl, fun b => rfl, ?_, ?_⟩
  · intro hEmail hEmailOk hPassword hPasswordOk hOnline
    cases hl : loginEnv.loginUserIn s.email s.password with
    | resolved credential =>
      cases hu : credential.user <;>
        simp [LoginScreen.onPressLogin, LoginScreen.validateEmail,
          LoginScreen.validatePassword, hEmail, hEmailOk, hPassword, hPasswordOk, hOnline, hl,
          hu, calls, calls_append]
    | rejected e =>
      simp [LoginScreen.onPressLogin, LoginScreen.validateEmail, LoginScreen.validatePassword,
        hEmail, hEmailOk, hPassword, hPasswordOk, hOnline, hl, calls, calls_append]
    | pending =>
      simp [LoginScreen.onPressLogin, LoginScreen.validateEmail, LoginScreen.validatePassword,
        hEmail, hEmailOk, hPassword, hPasswordOk, hOnline, hl, calls, calls_append]
  · intro hPassword
    cases hl : profileEnv.loginUserIn store.email password with
    | resolved credential =>
      cases hu : credential.user <;>
        simp [ProfileScreen.changeEmail, hPassword, hl, hu, calls, calls_append]
    | rejected e => simp [ProfileScreen.changeEmail, hPassword, hl, calls, calls_append]
    | pending => simp [ProfileScreen.changeEmail, hPassword, hl, calls, calls_append]

/-- Witness of the amended C13: the filled form and the open popup, both while loading. -/
theorem submit_ignores_loading_flag_witness :
    Call.loginUserIn "amira@example.com" "secret1" ∈
        calls (LoginScreen.onPressLogin (Sample.loginEnv .pending .pending) Sample.store
          Sample.busyLogin).trace ∧
    Call.loginUserIn "amira@example.com" "secret1" ∈
        calls (ProfileScreen.changeEmail (Sample.profileEnv .pending) Sample.store
          Sample.busyPopup "secret1").trace :=
  ⟨(submit_ignores_loading_flag (Sample.loginEnv .pending .pending)
      (Sample.profileEnv .pending) Sample.store Sample.filledLogin Sample.popupOpen
      "secret1").2.2.1 (by decide) (by decide) (by decide) (by decide) rfl,
   (submit_ignores_loading_flag (Sample.loginEnv .pending .pending)
      (Sample.profileEnv .pending) Sample.store Sample.filledLogin Sample.popupOpen
      "secret1").2.2.2 (by decide)⟩

/-- C14: in a build whose `__DEV__` is false, `onPayBtnLongPress` and `deleteUserAndLogout`
return without any call and without any setter call: no `schedule`, no `fetchAppointments`,
the success modal is left as it was; no `deleteUserDoc`, no `setUserData`, no `logout`, no
`goBack`. -/
theorem developer_handlers_gated (paymentEnv : PaymentScreen.Env)
    (settingsEnv : SettingsScreen.Env) (store : Store) (params : RouteParams)
    (s : PaymentScreen.State)
    (hPayment : paymentEnv.dev = false) (hSettings : settingsEnv.dev = false) :
    PaymentScreen.onPayBtnLongPress paymentEnv store params = ⟨[], .returned⟩ ∧
    calls (PaymentScreen.onPayBtnLongPress paymentEnv store params).trace = [] ∧
    (s.after (PaymentScreen.onPayBtnLongPress paymentEnv store params).trace).showSuccessModal
      = s.showSuccessModal ∧
    SettingsScreen.deleteUserAndLogout settingsEnv store = ⟨[], .returned⟩ ∧
    calls (SettingsScreen.deleteUserAndLogout settingsEnv store).trace = [] := by
  simp [PaymentScreen.onPayBtnLongPress, SettingsScreen.deleteUserAndLogout, hPayment,
    hSettings, calls, sets, PaymentScreen.State.after]

/-- Witness of C14: the production environments of the examples. -/
theorem developer_handlers_gated_witness :
    PaymentScreen.onPayBtnLongPress (Sample.paymentEnv .pending .pending) Sample.store
      Sample.params = ⟨[], .returned⟩ ∧
    SettingsScreen.deleteUserAndLogout Sample.settingsEnv Sample.store = ⟨[], .returned⟩ :=
  ⟨(developer_handlers_gated (Sample.paymentEnv .pending .pending) Sample.settingsEnv
      Sample.store Sample.params PaymentScreen.State.initial rfl rfl).1,
   (developer_handlers_gated (Sample.paymentEnv .pending .pending) Sample.settingsEnv
      Sample.store Sample.params PaymentScreen.State.initial rfl rfl).2.2.2.1⟩

/-! ## Effects on the shared state and on the persisted document -/

/-- One connected `applyChange` of the full name: the calls it makes and the world after. -/
theorem applyFullName_connected (env : ProfileScreen.Env) (v : String) (w : World)
    (hOnline : w.shared.store.isConnectedToInternet = true) :
    calls (ProfileScreen.applyChange env w.shared.store "fullName" v).trace =
      [.dispatch (.setName v), .updateUserData w.shared.store.uid (.name v),
       .displayMessage (.ui w.shared.store.language .changesApplied)] ∧
    ProfileScreen.applyFullName env v w =
      { shared := { w.shared with store := { w.shared.store with name := v } }
        documents := updateUserData w.documents w.shared.store.uid (.name v) } := by
  simp [ProfileScreen.applyFullName, ProfileScreen.applyChange, hOnline, World.after, calls,
    World.perform, SharedState.reduce]

/-- Writing the same name twice to a document is writing it once. -/
theorem updateUserData_name_twice (documents : String → ProfileDoc) (uid v : String) :
    updateUserData (updateUserData documents uid (.name v)) uid (.name v) =
      updateUserData documents uid (.name v) := by
  funext id
  by_cases h : id = uid <;> simp [updateUserData, ProfileDoc.update, h]

/-- A second connected `applyChange` of the same full name changes nothing. -/
theorem applyFullName_twice (env : ProfileScreen.Env) (v : String) (w : World)
    (hOnline : w.shared.store.isConnectedToInternet = true) :
    ProfileScreen.applyFullName env v (ProfileScreen.applyFullName env v w) =
      ProfileScreen.applyFullName env v w := by
  rw [(applyFullName_connected env v w hOnline).2]
  have h := (applyFullName_connected env v
    { shared := { w.shared with store := { w.shared.store with name := v } }
      documents := updateUserData w.documents w.shared.store.uid (.name v) } hOnline).2
  rw [h]
  simp [updateUserData_name_twice]

/-- Any positive number of connected `applyChange` of the same full name amounts to one. -/
theorem applyFullName_iterate (env : ProfileScreen.Env) (v : String) (w : World)
    (hOnline : w.shared.store.isConnectedToInternet = true) (n : Nat) :
    (ProfileScreen.applyFullName env v)^[n + 1] w = ProfileScreen.applyFullName env v w := by
  induction n with
  | zero => rfl
  | succ n ih =>
    rw [Function.iterate_succ_apply', ih, applyFullName_twice env v w hOnline]

/-- C11: while connected, for every name `v` and every `n ≥ 1`, each of `n` successive
invocations of `applyChange({type: 'fullName', value: v})` dispatches `setName(v)`, calls
`updateUserData(uid, {name: v})` and displays the confirmation, and nothing else; after the
`n` invocations the shared state and the documents are what they are after one: the shared
name and the name of the user's document are `v`, every other shared value, every other
field of that document and every other document are as before. -/
theorem applyChange_fullName_repeated (env : ProfileScreen.Env) (v : String) (w : World)
    (n : Nat) (hOnline : w.shared.store.isConnectedToInternet = true) (hn : 1 ≤ n) :
    (∀ k, calls (ProfileScreen.applyChange env
        ((ProfileScreen.applyFullName env v)^[k] w).shared.store "fullName" v).trace =
      [.dispatch (.setName v), .updateUserData w.shared.store.uid (.name v),
       .displayMessage (.ui w.shared.store.language .changesApplied)]) ∧
    (ProfileScreen.applyFullName env v)^[n] w = ProfileScreen.applyFullName env v w ∧
    ((ProfileScreen.applyFullName env v)^[n] w).shared.store.name = v ∧
    (((ProfileScreen.applyFullName env v)^[n] w).documents w.shared.store.uid).name = v ∧
    ((ProfileScreen.applyFullName env v)^[n] w).shared =
      { w.shared with store := { w.shared.store with name := v } } ∧
    (∀ id, ((ProfileScreen.applyFullName env v)^[n] w).documents id =
      if id = w.shared.store.uid then { w.documents id with name := v } else w.documents id) := by
  obtain ⟨m, rfl⟩ : ∃ m, n = m + 1 := ⟨n - 1, by omega⟩
  have hOne := (applyFullName_connected env v w hOnline).2
  refine ⟨?_, applyFullName_iterate env v w hOnline m, ?_, ?_, ?_, ?_⟩
  · intro k
    cases k with
    | zero => exact (applyFullName_connected env v w hOnline).1
    | succ k =>
      rw [applyFullName_iterate env v w hOnline k, hOne]
      exact (applyFullName_connected env v
        { shared := { w.shared with store := { w.shared.store with name := v } }
          documents := updateUserData w.documents w.shared.store.uid (.name v) } hOnline).1
  · rw [applyFullName_iterate env v w hOnline m, hOne]
  · rw [applyFullName_iterate env v w hOnline m, hOne]
    simp [updateUserData, ProfileDoc.update]
  · rw [applyFullName_iterate env v w hOnline m, hOne]
  · intro id
    rw [applyFullName_iterate env v w hOnline m, hOne]
    by_cases h : id = w.shared.store.uid <;> simp [updateUserData, ProfileDoc.update, h]

/-- Witness of C11: three invocations with the name `Amira B.` in the example world. -/
theorem applyChange_fullName_repeated_witness :
    ((ProfileScreen.applyFullName (Sample.profileEnv Sample.signedIn) "Amira B.")^[3]
        Sample.world).shared.store.name = "Amira B." ∧
    (((ProfileScreen.applyFullName (Sample.profileEnv Sample.signedIn) "Amira B.")^[3]
        Sample.world).documents "u1").name = "Amira B." :=
  ⟨(applyChange_fullName_repeated (Sample.profileEnv Sample.signedIn) "Amira B." Sample.world
      3 rfl (by decide)).2.2.1,
   (applyChange_fullName_repeated (Sample.profileEnv Sample.signedIn) "Amira B." Sample.world
      3 rfl (by decide)).2.2.2.1⟩

/-- C15: for every `languageArg` and every `deviceLanguage` of the store, `onSelectLanguage`
returns after exactly two calls, in this order: the dispatch of
`setLanguageIsSetManually(b)`, where `b` is true exactly when `languageArg` differs from
`deviceLanguage`, and the dispatch of `setLanguage(languageArg)`. Afterwards the shared
language is `languageArg` and the manually-set flag is `b`. -/
theorem onSelectLanguage_dispatches (w : World) (languageArg : String) :
    (SettingsScreen.onSelectLanguage w.shared.store languageArg).completion = .returned ∧
    (SettingsScreen.onSelectLanguage w.shared.store languageArg).trace =
      [.ext (.dispatch (.setLanguageIsSetManually
          (decide (languageArg ≠ w.shared.store.deviceLanguage)))),
       .ext (.dispatch (.setLanguage languageArg))] ∧
    (SettingsScreen.selectLanguage languageArg w).shared.store.language = languageArg ∧
    (SettingsScreen.selectLanguage languageArg w).shared.languageIsSetManually =
      decide (languageArg ≠ w.shared.store.deviceLanguage) := by
  by_cases h : languageArg = w.shared.store.deviceLanguage <;>
    simp [SettingsScreen.selectLanguage, SettingsScreen.onSelectLanguage, h, World.after, calls,
      World.perform, SharedState.reduce]

/-! ## The pending address of the profile screen -/

namespace ProfileScreen

/-- Setter calls that keep the pending address leave `unAppliedEmail` as it is and do not
open the popup. -/
theorem foldl_apply_keeps (updates : List Setter) :
    ∀ s : State, (∀ u ∈ updates, u.keepsPendingEmail = true) →
      (updates.foldl State.apply s).unAppliedEmail = s.unAppliedEmail ∧
      ((updates.foldl State.apply s).showReEnterPasswordPopup = true →
        s.showReEnterPasswordPopup = true) := by
  induction updates with
  | nil => intro s _; exact ⟨rfl, id⟩
  | cons u rest ih =>
    intro s h
    have hu := h u (List.mem_cons_self _ _)
    have hr := ih (s.apply u) (fun x hx => h x (List.mem_cons_of_mem _ hx))
    simp only [List.foldl_cons]
    cases u with
    | setUnAppliedEmail v => simp [Setter.keepsPendingEmail] at hu
    | setShowReEnterPasswordPopup v =>
      cases v with
      | true => simp [Setter.keepsPendingEmail] at hu
      | false =>
        refine ⟨hr.1, fun hp => ?_⟩
        have := hr.2 hp
        simp [State.apply] at this
    | setUploadingPicture v => exact hr
    | setViewBottomOffset v => exact hr
    | setPasswordErrorMessage v => exact hr
    | setChangeEmailLoading v => exact hr

/-- A run of `applyChange` either accepts the address, which then matches the pattern, and
opens the popup on it, or calls no setter and carries no address anywhere. -/
theorem applyChange_cases (env : Env) (store : Store) (type value : String) :
    ((applyChange env store type value).trace =
        [.set (.setUnAppliedEmail value), .set (.setPasswordErrorMessage (.raw "")),
         .ext .keyboardDismiss, .set (.setShowReEnterPasswordPopup true)] ∧
      env.patterns.email value = true) ∨
    (sets (applyChange env store type value).trace = [] ∧
      ∀ c ∈ calls (applyChange env store type value).trace, c.carriedEmail = none) := by
  unfold applyChange
  cases hOnline : store.isConnectedToInternet
  · right; simp [sets, calls, Call.carriedEmail]
  · by_cases hName : type = "fullName"
    · right; simp [hName, sets, calls, Call.carriedEmail]
    · by_cases hMail : type = "email"
      · cases hMatch : env.patterns.email value
        · right; simp [hName, hMail, hMatch, sets, calls, Call.carriedEmail]
        · left; simp [hName, hMail, hMatch]
      · right; simp [hName, hMail, sets, calls]

/-- The four shapes of the trace of `changeEmail`: the blank password, the sign-in that never
settles, the failed and the successful re-authentication. -/
theorem changeEmail_shapes (env : Env) (store : Store) (s : State) (password : String) :
    (changeEmail env store s password).trace =
        [.set (.setPasswordErrorMessage (.ui store.language .blankPassword))] ∨
    (changeEmail env store s password).trace =
        [.set (.setPasswordErrorMessage (.raw "")), .set (.setChangeEmailLoading true),
         .ext (.loginUserIn store.email password)] ∨
    (changeEmail env store s password).trace =
        [.set (.setPasswordErrorMessage (.raw "")), .set (.setChangeEmailLoading true),
         .ext (.loginUserIn store.email password)] ++ onReauthenticationFailure store s ∨
    (changeEmail env store s password).trace =
        [.set (.setPasswordErrorMessage (.raw "")), .set (.setChangeEmailLoading true),
         .ext (.loginUserIn store.email password),
         .set (.setChangeEmailLoading false),
         .set (.setShowReEnterPasswordPopup false),
         .ext (.dispatch (.setEmail s.unAppliedEmail)),
         .ext (.updateUserData store.uid (.email s.unAppliedEmail)),
         .ext (.updateUserEmail s.unAppliedEmail),
         .ext (.displayMessage (.ui store.language .changesApplied))] := by
  unfold changeEmail
  by_cases hBlank : password = ""
  · left; simp [hBlank]
  · cases hl : env.loginUserIn store.email password with
    | pending => right; left; simp [hBlank]
    | rejected e => right; right; left; simp [hBlank]
    | resolved credential =>
      cases hu : credential.user with
      | none => right; right; left; simp [hBlank, hu]
      | some user => right; right; right; simp [hBlank, hu]

/-- The two parts of a run of `changeEmail`, before and after its `await`: neither replaces
`unAppliedEmail` nor opens the popup, the first carries no address, and every address the
second carries is the `unAppliedEmail` captured at the invocation. -/
theorem changeEmail_parts (env : Env) (store : Store) (s : State) (password : String) :
    (∀ u ∈ sets (splitAtLoginUserIn (changeEmail env store s password).trace).1,
      u.keepsPendingEmail = true) ∧
    (∀ c ∈ calls (splitAtLoginUserIn (changeEmail env store s password).trace).1,
      c.carriedEmail = none) ∧
    (∀ u ∈ sets (splitAtLoginUserIn (changeEmail env store s password).trace).2,
      u.keepsPendingEmail = true) ∧
    (∀ c ∈ calls (splitAtLoginUserIn (changeEmail env store s password).trace).2,
      ∀ address, c.carriedEmail = some address → address = s.unAppliedEmail) := by
  rcases changeEmail_shapes env store s password with h | h | h | h
  · simp [h, splitAtLoginUserIn, sets, calls, Setter.keepsPendingEmail]
  · simp [h, splitAtLoginUserIn, sets, calls, Setter.keepsPendingEmail, Call.carriedEmail]
  · cases hp : s.showReEnterPasswordPopup <;>
      simp [h, hp, onReauthenticationFailure, splitAtLoginUserIn, sets, calls,
        Setter.keepsPendingEmail, Call.carriedEmail]
  · simp only [h, splitAtLoginUserIn, sets, calls]
    refine ⟨?_, ?_, ?_, ?_⟩
    · simp [Setter.keepsPendingEmail]
    · simp [Call.carriedEmail]
    · simp [Setter.keepsPendingEmail]
    · intro c hc address hAddress
      simp only [List.mem_cons, List.mem_singleton, List.not_mem_nil, or_false] at hc
      rcases hc with rfl | rfl | rfl | rfl <;> simp [Call.carriedEmail] at hAddress
      all_goals exact hAddress.symm

/-- Every address a whole run of `changeEmail` carries is the captured `unAppliedEmail`. -/
theorem changeEmail_carries_pending (env : Env) (store : Store) (s : State)
    (password : String) :
    ∀ c ∈ calls (changeEmail env store s password).trace,
      ∀ address, c.carriedEmail = some address → address = s.unAppliedEmail := by
  rcases changeEmail_shapes env store s password with h | h | h | h
  · simp [h, calls]
  · simp [h, calls, Call.carriedEmail]
  · cases hp : s.showReEnterPasswordPopup <;>
      simp [h, hp, onReauthenticationFailure, calls, Call.carriedEmail]
  · intro c hc address hAddress
    simp only [h, calls, List.mem_cons, List.mem_singleton, List.not_mem_nil, or_false] at hc
    rcases hc with rfl | rfl | rfl | rfl | rfl <;> simp [Call.carriedEmail] at hAddress
    all_goals exact hAddress.symm

/-- The invariant holds on the freshly mounted screen. -/
theorem invariant_initial (env : Env) : Invariant env Machine.initial where
  popup := by simp [Machine.initial, State.initial]
  quiet := by simp [Machine.initial]
  awaiting := by simp [Machine.initial]
  issued := by simp [Machine.initial]

/-- Every event preserves the invariant. -/
theorem invariant_step (env : Env) (m : Machine) (input : Input) (h : Invariant env m) :
    Invariant env (step env m input) := by
  cases input with
  | applyChange store type value =>
    rcases applyChange_cases env store type value with ⟨hTrace, hMatch⟩ | ⟨hSets, hCalls⟩
    · refine ⟨?_, h.quiet, h.awaiting, ?_⟩
      · intro _
        simp [step, hTrace, opensPopup, sets, State.after, State.apply, hMatch]
      · intro c hc address hAddress
        simp only [step, hTrace, calls, List.mem_append, List.mem_singleton] at hc
        rcases hc with hc | rfl
        · exact h.issued c hc address hAddress
        · simp [Call.carriedEmail] at hAddress
    · refine ⟨?_, h.quiet, h.awaiting, ?_⟩
      · simpa [step, hSets, opensPopup, State.after] using h.popup
      · intro c hc address hAddress
        simp only [step, List.mem_append] at hc
        rcases hc with hc | hc
        · exact h.issued c hc address hAddress
        · rw [hCalls c hc] at hAddress
          cases hAddress
  | changeEmail store password outcome =>
    cases hPopup : m.screen.showReEnterPasswordPopup with
    | false => simpa [step, hPopup] using h
    | true =>
      obtain ⟨hAccepted, hMatch⟩ := h.popup hPopup
      obtain ⟨hSets1, hCalls1, hSets2, hCalls2⟩ :=
        changeEmail_parts { env with loginUserIn := fun _ _ => outcome } store m.screen password
      have hKeep := foldl_apply_keeps _ m.screen hSets1
      simp only [step, hPopup, if_true]
      refine ⟨?_, ?_, ?_, ?_⟩
      · intro hShown
        simp only [State.after] at hShown ⊢
        rw [hKeep.1]
        exact ⟨hAccepted, hMatch⟩
      · intro rest hRest
        simp only [List.mem_append, List.mem_singleton] at hRest
        rcases hRest with hRest | rfl
        · exact h.quiet rest hRest
        · exact hSets2
      · intro rest hRest c hc address hAddress
        simp only [List.mem_append, List.mem_singleton] at hRest
        rcases hRest with hRest | rfl
        · exact h.awaiting rest hRest c hc address hAddress
        · rw [hCalls2 c hc address hAddress]
          exact hMatch
      · intro c hc address hAddress
        simp only [List.mem_append] at hc
        rcases hc with hc | hc
        · exact h.issued c hc address hAddress
        · rw [hCalls1 c hc] at hAddress
          cases hAddress
  | settle index =>
    cases hRest : m.awaiting[index]? with
    | none => simpa [step, hRest] using h
    | some rest =>
      have hMem : rest ∈ m.awaiting := List.getElem?_mem hRest
      have hKeep := foldl_apply_keeps _ m.screen (h.quiet rest hMem)
      simp only [step, hRest]
      refine ⟨?_, ?_, ?_, ?_⟩
      · intro hShown
        simp only [State.after] at hShown ⊢
        rw [hKeep.1]
        exact h.popup (hKeep.2 hShown)
      · intro other hOther
        exact h.quiet other (List.mem_of_mem_eraseIdx hOther)
      · intro other hOther
        exact h.awaiting other (List.mem_of_mem_eraseIdx hOther)
      · intro c hc address hAddress
        simp only [List.mem_append] at hc
        rcases hc with hc | hc
        · exact h.issued c hc address hAddress
        · exact h.awaiting rest hMem c hc address hAddress
  | dismiss =>
    refine ⟨?_, h.quiet, h.awaiting, h.issued⟩
    simp [step, State.apply]

/-- The invariant holds in every reachable state. -/
theorem invariant_of_reachable (env : Env) (m : Machine) (h : Reachable env m) :
    Invariant env m := by
  induction h with
  | initial => exact invariant_initial env
  | step m input _ ih => exact invariant_step env m input ih

/-- The state after a sequence of events is reachable. -/
theorem reachable_run (env : Env) (inputs : List Input) : Reachable env (run env inputs) := by
  have h : ∀ (inputs : List Input) (m : Machine), Reachable env m →
      Reachable env (inputs.foldl (step env) m) := by
    intro inputs
    induction inputs with
    | nil => intro m hm; exact hm
    | cons input rest ih => intro m hm; exact ih _ (Reachable.step m input hm)
  exact h inputs Machine.initial Reachable.initial

/-- C16: in every state the profile screen reaches through `applyChange`, `changeEmail`
pressed in the popup, the settling of an awaited sign-in and the dismissal of the popup:
whenever the popup is shown, `unAppliedEmail` is the value of the most recent accepted
`applyChange` of an address and matches the email pattern; so every address that a
`changeEmail` invoked from that popup carries in `setEmail`, `updateUserData` and
`updateUserEmail` is that one address; and every address carried by a call issued so far
matches the pattern. -/
theorem popup_holds_accepted_email (env : Env) (m : Machine) (h : Reachable env m) :
    (m.screen.showReEnterPasswordPopup = true →
      m.accepted = some m.screen.unAppliedEmail ∧
        env.patterns.email m.screen.unAppliedEmail = true) ∧
    (m.screen.showReEnterPasswordPopup = true →
      ∀ store password outcome,
        ∀ c ∈ calls (changeEmail { env with loginUserIn := fun _ _ => outcome } store m.screen
            password).trace,
          ∀ address, c.carriedEmail = some address →
            address = m.screen.unAppliedEmail ∧ m.accepted = some address ∧
              env.patterns.email address = true) ∧
    (∀ c ∈ m.issued, ∀ address, c.carriedEmail = some address →
      env.patterns.email address = true) := by
  have hInv := invariant_of_reachable env m h
  refine ⟨hInv.popup, ?_, hInv.issued⟩
  intro hShown store password outcome c hc address hAddress
  have hSame := changeEmail_carries_pending _ store m.screen password c hc address hAddress
  obtain ⟨hAccepted, hMatch⟩ := hInv.popup hShown
  subst hSame
  exact ⟨rfl, hAccepted, hMatch⟩

/-- Witness of C16: after the first event of the example session the popup shows the accepted
address; after the whole session every address carried by an issued call matches the
pattern, and `setEmail` was issued with the accepted address. -/
theorem popup_holds_accepted_email_witness :
    ((run (Sample.profileEnv Sample.signedIn) (Sample.session.take 1)).accepted =
        some "amira@work.example" ∧
      Sample.patterns.email "amira@work.example" = true) ∧
    (∀ c ∈ (run (Sample.profileEnv Sample.signedIn) Sample.session).issued,
      ∀ address, c.carriedEmail = some address → Sample.patterns.email address = true) ∧
    Call.dispatch (.setEmail "amira@work.example") ∈
      (run (Sample.profileEnv Sample.signedIn) Sample.session).issued :=
  ⟨(popup_holds_accepted_email (Sample.profileEnv Sample.signedIn)
      (run (Sample.profileEnv Sample.signedIn) (Sample.session.take 1))
      (reachable_run (Sample.profileEnv Sample.signedIn) (Sample.session.take 1))).1
      (by decide),
   (popup_holds_accepted_email (Sample.profileEnv Sample.signedIn)
      (run (Sample.profileEnv Sample.signedIn) Sample.session)
      (reachable_run (Sample.profileEnv Sample.signedIn) Sample.session)).2.2,
   by decide⟩

end ProfileScreen

end RNSample
